import Mathlib

/-!
Verification of the material override resolution and texture-key
deduplication engine of the `gltf_conv` repository.

The Python sources under `gltf_conv/` are shallowly embedded below:
Python values appearing in override records are modelled by `PyVal`,
fallible code returns `Except PyError`, floats are modelled by `ℚ`,
and Python `dict`s are modelled by association lists in insertion
order (`PyDict`).
-/

namespace GltfConv

/-- A Python runtime value as it can appear in a (JSON-derived) override
record or material record: `None`, bools, numbers (ints and floats are
both modelled by `ℚ`), strings (also standing in for `pathlib.Path`
values), lists, tuples and string-keyed dicts. -/
inductive PyVal : Type where
  | none : PyVal
  | bool (b : Bool) : PyVal
  | num (q : ℚ) : PyVal
  | str (s : String) : PyVal
  | list (l : List PyVal) : PyVal
  | tuple (l : List PyVal) : PyVal
  | dict (d : List (String × PyVal)) : PyVal
deriving Repr

/-- Python dicts are modelled as association lists in insertion order. -/
abbrev PyDict := List (String × PyVal)

mutual

/-- Structural decidable equality for `PyVal`. -/
def PyVal.beq : PyVal → PyVal → Bool
  | .none, .none => true
  | .bool a, .bool b => a == b
  | .num a, .num b => a == b
  | .str a, .str b => a == b
  | .list a, .list b => PyVal.beqList a b
  | .tuple a, .tuple b => PyVal.beqList a b
  | .dict a, .dict b => PyVal.beqDict a b
  | _, _ => false

/-- Elementwise equality of `PyVal` lists. -/
def PyVal.beqList : List PyVal → List PyVal → Bool
  | [], [] => true
  | a :: as', b :: bs' => PyVal.beq a b && PyVal.beqList as' bs'
  | _, _ => false

/-- Entrywise equality of `PyVal` dicts. -/
def PyVal.beqDict : List (String × PyVal) → List (String × PyVal) → Bool
  | [], [] => true
  | (ka, va) :: as', (kb, vb) :: bs' =>
      ka == kb && PyVal.beq va vb && PyVal.beqDict as' bs'
  | _, _ => false

end

mutual

theorem PyVal.beq_refl : ∀ a : PyVal, PyVal.beq a a = true
  | .none => rfl
  | .bool b => by simp [PyVal.beq]
  | .num q => by simp [PyVal.beq]
  | .str s => by simp [PyVal.beq]
  | .list l => by simp [PyVal.beq, PyVal.beqList_refl l]
  | .tuple l => by simp [PyVal.beq, PyVal.beqList_refl l]
  | .dict d => by simp [PyVal.beq, PyVal.beqDict_refl d]

theorem PyVal.beqList_refl : ∀ l : List PyVal, PyVal.beqList l l = true
  | [] => rfl
  | a :: as' => by simp [PyVal.beqList, PyVal.beq_refl a, PyVal.beqList_refl as']

theorem PyVal.beqDict_refl : ∀ d : List (String × PyVal), PyVal.beqDict d d = true
  | [] => rfl
  | (k, v) :: ds => by simp [PyVal.beqDict, PyVal.beq_refl v, PyVal.beqDict_refl ds]

end

mutual

theorem PyVal.beq_eq : ∀ a b : PyVal, PyVal.beq a b = true → a = b
  | .none, .none, _ => rfl
  | .bool a, .bool b, h => by simpa [PyVal.beq] using h
  | .num a, .num b, h => by simpa [PyVal.beq] using h
  | .str a, .str b, h => by simpa [PyVal.beq] using h
  | .list a, .list b, h => by
      simp only [PyVal.beq] at h
      exact congrArg PyVal.list (PyVal.beqList_eq a b h)
  | .tuple a, .tuple b, h => by
      simp only [PyVal.beq] at h
      exact congrArg PyVal.tuple (PyVal.beqList_eq a b h)
  | .dict a, .dict b, h => by
      simp only [PyVal.beq] at h
      exact congrArg PyVal.dict (PyVal.beqDict_eq a b h)

theorem PyVal.beqList_eq : ∀ a b : List PyVal, PyVal.beqList a b = true → a = b
  | [], [], _ => rfl
  | x :: xs, y :: ys, h => by
      simp only [PyVal.beqList, Bool.and_eq_true] at h
      rw [PyVal.beq_eq x y h.1, PyVal.beqList_eq xs ys h.2]

theorem PyVal.beqDict_eq :
    ∀ a b : List (String × PyVal), PyVal.beqDict a b = true → a = b
  | [], [], _ => rfl
  | (ka, va) :: xs, (kb, vb) :: ys, h => by
      simp only [PyVal.beqDict, Bool.and_eq_true, beq_iff_eq] at h
      rw [h.1.1, PyVal.beq_eq va vb h.1.2, PyVal.beqDict_eq xs ys h.2]

end

instance : DecidableEq PyVal := fun a b =>
  if h : PyVal.beq a b = true then
    isTrue (PyVal.beq_eq a b h)
  else
    isFalse (fun he => h (he ▸ PyVal.beq_refl a))

/-- Python truthiness of a `PyVal` (`bool(v)`). -/
def pyTruthy : PyVal → Bool
  | .none => false
  | .bool b => b
  | .num q => q != 0
  | .str s => s ≠ ""
  | .list l => l ≠ []
  | .tuple l => l ≠ []
  | .dict d => d ≠ []

/-- Errors raised by the embedded Python code. -/
inductive PyError : Type where
  /-- `ValueError(msg)` with a fixed message. -/
  | valueError (msg : String) : PyError
  /-- `ValueError(f'Unknown overrides: {override}')`: carries the keys of
  the unconsumed override record. -/
  | unknownOverrides (keys : List String) : PyError
  /-- A failed `assert`. -/
  | assertionError : PyError
  /-- Attribute access on an object whose attribute was never assigned. -/
  | attributeError (msg : String) : PyError
  /-- `TypeError`, e.g. iterating / membership-testing a non-container. -/
  | typeError (msg : String) : PyError
  /-- Missing key in a mandatory dict access. -/
  | keyError (key : String) : PyError
  /-- Out-of-range list index. -/
  | indexError : PyError
deriving Repr, DecidableEq

/-- First-match association-list lookup (Python `d[k]` / `k in d` on a
dict whose keys are unique; duplicates resolve to the first entry). -/
def alookup {α β : Type} [DecidableEq α] : List (α × β) → α → Option β
  | [], _ => Option.none
  | (k, v) :: rest, k' => if k' = k then some v else alookup rest k'

/-- Keys of an association list. -/
def akeys {α β : Type} : List (α × β) → List α := List.map Prod.fst

/-- Python `d.pop(k, None)`: the popped value (if any) and the dict with
the first entry for `k` removed. -/
def popD {β : Type} : List (String × β) → String → Option β × List (String × β)
  | [], _ => (Option.none, [])
  | (k, v) :: rest, k' =>
      if k' = k then (some v, rest)
      else ((popD rest k').1, (k, v) :: (popD rest k').2)

/-- Python `d[k] = v`: replace the value at the first occurrence of `k`,
keeping its position, or append `(k, v)` if `k` is absent. -/
def setK {α β : Type} [DecidableEq α] : List (α × β) → α → β → List (α × β)
  | [], k, v => [(k, v)]
  | (k0, v0) :: rest, k, v =>
      if k = k0 then (k0, v) :: rest else (k0, v0) :: setK rest k v

/-- `utils.is_numeric`: `isinstance(obj, (int, float))`.  Note that in
Python `bool` is a subclass of `int`, so bools count as numeric. -/
def is_numeric : PyVal → Bool
  | .num _ => true
  | .bool _ => true
  | _ => false

/-- `utils.is_numeric_sequence`: a tuple or list all of whose elements
are numeric. -/
def is_numeric_sequence : PyVal → Bool
  | .list l => l.all is_numeric
  | .tuple l => l.all is_numeric
  | _ => false

/-- The rational value of a numeric `PyVal` (Python arithmetic treats
`True`/`False` as `1`/`0`). -/
def numVal : PyVal → ℚ
  | .num q => q
  | .bool b => if b then 1 else 0
  | _ => 0

/-- `utils._modulate(original, modulator)`: literal modulators replace
the original; `{op, value}` directives apply `mult`/`add` with scalar
broadcasting and elementwise vector semantics. -/
def _modulate (original modulator : PyVal) : Except PyError PyVal :=
  match modulator with
  | .dict d =>
      match alookup d "op" with
      | Option.none => Except.error (PyError.keyError "op")
      | some op =>
        match alookup d "value" with
        | Option.none => Except.error (PyError.keyError "value")
        | some value =>
          if op ≠ PyVal.str "mult" ∧ op ≠ PyVal.str "add" then
            Except.error (PyError.valueError "Unknown operator")
          else if original = PyVal.none then
            Except.error (PyError.valueError "Cannot modulate a None value")
          else if ¬(is_numeric original ∨ is_numeric_sequence original) then
            Except.error (PyError.valueError "Original value must be numeric")
          else if ¬(is_numeric value ∨ is_numeric_sequence value) then
            Except.error (PyError.valueError "Value must be numeric")
          else
            let f : ℚ → ℚ → ℚ := if op = PyVal.str "mult" then (· * ·) else (· + ·)
            if is_numeric original ∧ is_numeric value then
              Except.ok (PyVal.num (f (numVal original) (numVal value)))
            else if is_numeric original ∧ is_numeric_sequence value then
              Except.error (PyError.valueError "Cannot modulate float by tuple")
            else
              match original, value with
              | .list ol, .num q =>
                  Except.ok (PyVal.tuple (ol.map (fun o => PyVal.num (f (numVal o) q))))
              | .tuple ol, .num q =>
                  Except.ok (PyVal.tuple (ol.map (fun o => PyVal.num (f (numVal o) q))))
              | .list ol, .bool b =>
                  Except.ok (PyVal.tuple (ol.map (fun o =>
                    PyVal.num (f (numVal o) (numVal (PyVal.bool b))))))
              | .tuple ol, .bool b =>
                  Except.ok (PyVal.tuple (ol.map (fun o =>
                    PyVal.num (f (numVal o) (numVal (PyVal.bool b))))))
              | .list ol, .list vl =>
                  if ol.length ≠ vl.length then
                    Except.error (PyError.valueError "must be equal length")
                  else
                    Except.ok (PyVal.tuple (List.zipWith
                      (fun o v => PyVal.num (f (numVal o) (numVal v))) ol vl))
              | .list ol, .tuple vl =>
                  if ol.length ≠ vl.length then
                    Except.error (PyError.valueError "must be equal length")
                  else
                    Except.ok (PyVal.tuple (List.zipWith
                      (fun o v => PyVal.num (f (numVal o) (numVal v))) ol vl))
              | .tuple ol, .list vl =>
                  if ol.length ≠ vl.length then
                    Except.error (PyError.valueError "must be equal length")
                  else
                    Except.ok (PyVal.tuple (List.zipWith
                      (fun o v => PyVal.num (f (numVal o) (numVal v))) ol vl))
              | .tuple ol, .tuple vl =>
                  if ol.length ≠ vl.length then
                    Except.error (PyError.valueError "must be equal length")
                  else
                    Except.ok (PyVal.tuple (List.zipWith
                      (fun o v => PyVal.num (f (numVal o) (numVal v))) ol vl))
              | _, _ => Except.error PyError.assertionError
  | _ => Except.ok modulator

/-- `utils.modulate(original, modulator)`: runs `_modulate` and then
asserts that the numeric shape (scalar vs vector) of the result matches
the shape of the original — for every modulator, literals included. -/
def modulate (original modulator : PyVal) : Except PyError PyVal := do
  let out ← _modulate original modulator
  if is_numeric original = is_numeric out ∧
     is_numeric_sequence original = is_numeric_sequence out then
    Except.ok out
  else
    Except.error PyError.assertionError

/-- Whether a `PyVal` is a dict (`isinstance(v, Mapping)`). -/
def PyVal.isDict : PyVal → Bool
  | .dict _ => true
  | _ => false

/-- The entries of a dict `PyVal` (and `[]` on any other value). -/
def asDict : PyVal → PyDict
  | .dict d => d
  | _ => []

/-- Whether an optional `PyVal` holds a dict. -/
def isDictO : Option PyVal → Bool
  | some (.dict _) => true
  | _ => false

/-- The entries of an optional dict `PyVal` (`[]` otherwise). -/
def asDictO : Option PyVal → PyDict
  | some (.dict d) => d
  | _ => []

theorem sizeOf_asDict_lt (v : PyVal) (h : v.isDict = true) :
    sizeOf (asDict v) < sizeOf v := by
  cases v <;> simp [PyVal.isDict, asDict] at h ⊢

/-- `utils.recursive_overwrite(A, B)`: for each key of the overlay `B`,
recurse when both `A[k]` and `B[k]` hold dicts, otherwise overwrite
`A`'s entry with (a deep copy of) `B`'s value; keys only in `A` are
untouched. -/
def recursive_overwrite : PyDict → PyDict → PyDict
  | A, [] => A
  | A, (k, v) :: rest =>
      let A' : PyDict :=
        if h : isDictO (alookup A k) && v.isDict then
          setK A k (PyVal.dict (recursive_overwrite (asDictO (alookup A k)) (asDict v)))
        else setK A k v
      recursive_overwrite A' rest
termination_by A B => sizeOf B
decreasing_by
  all_goals simp_wf
  all_goals have := sizeOf_asDict_lt v (by exact (Bool.and_eq_true _ _ |>.mp h).2)
  all_goals omega

/-- Python `float(v)` for the value kinds that occur in material
records: numbers pass through, bools become `1`/`0`; other kinds error. -/
def pyFloat (v : PyVal) : Except PyError ℚ :=
  match v with
  | .num q => Except.ok q
  | .bool b => Except.ok (if b then 1 else 0)
  | _ => Except.error (PyError.typeError "float() argument")

/-- Python `tuple(v)`: iterating a list/tuple yields its elements, a
string its characters, a dict its keys; anything else raises TypeError. -/
def pyIter (v : PyVal) : Except PyError (List PyVal) :=
  match v with
  | .list l => Except.ok l
  | .tuple l => Except.ok l
  | .str s => Except.ok (s.data.map (fun c => PyVal.str (String.mk [c])))
  | .dict d => Except.ok (d.map (fun kv => PyVal.str kv.1))
  | _ => Except.error (PyError.typeError "argument is not iterable")

/-! ## The glTF material layer (`gltf_material_utils.py`) -/

/-- `GLTF_TextureInfo`: the raw `index` value of a texture reference. -/
structure GLTF_TextureInfo where
  index : PyVal
deriving Repr, DecidableEq

/-- `GLTF_TextureInfo.__init__`: requires the `index` key. -/
def GLTF_TextureInfo.ofPy (v : PyVal) : Except PyError GLTF_TextureInfo :=
  match v with
  | .dict d =>
      match alookup d "index" with
      | some i => Except.ok ⟨i⟩
      | Option.none => Except.error (PyError.keyError "index")
  | _ => Except.error (PyError.typeError "texture info is not a dict")

/-- `GLTF_NormalTexture`: texture index plus raw `scale` (default 1.0). -/
structure GLTF_NormalTexture where
  index : PyVal
  scale : PyVal
deriving Repr, DecidableEq

/-- `GLTF_NormalTexture.__init__`. -/
def GLTF_NormalTexture.ofPy (v : PyVal) : Except PyError GLTF_NormalTexture :=
  match v with
  | .dict d =>
      match alookup d "index" with
      | some i => Except.ok ⟨i, (alookup d "scale").getD (PyVal.num 1)⟩
      | Option.none => Except.error (PyError.keyError "index")
  | _ => Except.error (PyError.typeError "texture info is not a dict")

/-- `GLTF_OcclusionTexture`: texture index plus raw `strength`
(default 1.0). -/
structure GLTF_OcclusionTexture where
  index : PyVal
  strength : PyVal
deriving Repr, DecidableEq

/-- `GLTF_OcclusionTexture.__init__`. -/
def GLTF_OcclusionTexture.ofPy (v : PyVal) : Except PyError GLTF_OcclusionTexture :=
  match v with
  | .dict d =>
      match alookup d "index" with
      | some i => Except.ok ⟨i, (alookup d "strength").getD (PyVal.num 1)⟩
      | Option.none => Except.error (PyError.keyError "index")
  | _ => Except.error (PyError.typeError "texture info is not a dict")

/-- `GLTF_PBRMetallicRoughness`: base-color factor (a tuple of whatever
length the document supplies), optional base-color texture, optional
metallic/roughness factors and optional metallic-roughness texture. -/
structure GLTF_PBRMetallicRoughness where
  base_color_factor : List PyVal
  base_color_texture : Option GLTF_TextureInfo
  metallic_factor : Option ℚ
  roughness_factor : Option ℚ
  metallic_roughness_texture : Option GLTF_TextureInfo
deriving Repr, DecidableEq

/-- `GLTF_PBRMetallicRoughness.__init__`. -/
def GLTF_PBRMetallicRoughness.ofPy (v : PyVal) :
    Except PyError GLTF_PBRMetallicRoughness :=
  match v with
  | .dict d => do
      let bcf ← pyIter ((alookup d "baseColorFactor").getD
        (PyVal.list [PyVal.num 1, PyVal.num 1, PyVal.num 1, PyVal.num 1]))
      let bct ← match alookup d "baseColorTexture" with
        | some tv => some <$> GLTF_TextureInfo.ofPy tv
        | Option.none => pure Option.none
      let mf ← match alookup d "metallicFactor" with
        | some fv => some <$> pyFloat fv
        | Option.none => pure Option.none
      let rf ← match alookup d "roughnessFactor" with
        | some fv => some <$> pyFloat fv
        | Option.none => pure Option.none
      let mrt ← match alookup d "metallicRoughnessTexture" with
        | some tv => some <$> GLTF_TextureInfo.ofPy tv
        | Option.none => pure Option.none
      Except.ok ⟨bcf, bct, mf, rf, mrt⟩
  | _ => Except.error (PyError.typeError "pbrMetallicRoughness is not a dict")

/-- `GLTF_Material`: the parsed source material record. `alpha_mode` and
`double_sided` keep the raw document value (no conversion is applied in
the source); `alpha_cutoff` is parsed as a float with the MASK-dependent
default. -/
structure GLTF_Material where
  name : String
  pbr_metallic_roughness : Option GLTF_PBRMetallicRoughness
  normal_texture : Option GLTF_NormalTexture
  occlusion_texture : Option GLTF_OcclusionTexture
  emissive_texture : Option GLTF_TextureInfo
  emissive_factor : Option (List PyVal)
  alpha_mode : PyVal
  alpha_cutoff : Option ℚ
  double_sided : PyVal
deriving Repr, DecidableEq

/-- `GLTF_Material.__init__`.  Note: the source reads the alpha-cutoff
value from the key `'alphaCuttoff'` (sic), with default `0.5` when the
alpha mode is `'MASK'` and `None` otherwise. -/
def GLTF_Material.ofPy (v : PyVal) : Except PyError GLTF_Material :=
  match v with
  | .dict d => do
      let name ← match alookup d "name" with
        | some (.str s) => pure s
        | some _ => Except.error (PyError.typeError "name is not a string")
        | Option.none => Except.error (PyError.keyError "name")
      let pbr ← match alookup d "pbrMetallicRoughness" with
        | some pv => some <$> GLTF_PBRMetallicRoughness.ofPy pv
        | Option.none => pure Option.none
      let nt ← match alookup d "normalTexture" with
        | some nv => some <$> GLTF_NormalTexture.ofPy nv
        | Option.none => pure Option.none
      let ot ← match alookup d "occlusionTexture" with
        | some ov => some <$> GLTF_OcclusionTexture.ofPy ov
        | Option.none => pure Option.none
      let et ← match alookup d "emissiveTexture" with
        | some ev => some <$> GLTF_TextureInfo.ofPy ev
        | Option.none => pure Option.none
      let ef ← match alookup d "emissiveFactor" with
        | some fv => some <$> pyIter fv
        | Option.none => pure Option.none
      let am := (alookup d "alphaMode").getD (PyVal.str "OPAQUE")
      let ac ← match alookup d "alphaCuttoff" with
        | some cv => some <$> pyFloat cv
        | Option.none =>
            pure (if am = PyVal.str "MASK" then some ((1 : ℚ) / 2) else Option.none)
      let ds := (alookup d "doubleSided").getD (PyVal.bool false)
      Except.ok ⟨name, pbr, nt, ot, et, ef, am, ac, ds⟩
  | _ => Except.error (PyError.typeError "material is not a dict")

/-! ## The glTF source document (`gltf_src.py`) -/

/-- `os.path.join(dir, p)` for the forward-slash paths this pipeline
produces (an absolute second component wins; a trailing separator on
`dir` is not doubled). -/
def pathJoin (dir p : String) : String :=
  if p.data.head? = some '/' then p
  else if dir = "" then p
  else if dir.data.getLast? = some '/' then dir ++ p
  else dir ++ "/" ++ p

/-- Split a character list on a separator character (like
`str.split(sep)`). -/
def splitChar : List Char → Char → List (List Char)
  | [], _ => [[]]
  | x :: xs, c =>
      match splitChar xs c with
      | [] => if x = c then [[], []] else [[x]]
      | h :: t => if x = c then [] :: h :: t else (x :: h) :: t

/-- Index of the last `'.'` in a list of characters, if any. -/
def lastDotIdx (l : List Char) : Option Nat :=
  (l.reverse.findIdx? (· = '.')).map (fun j => l.length - 1 - j)

/-- `pathlib.Path(p).stem`: the final path component without its last
suffix; a leading or trailing dot does not start a suffix. -/
def pathStem (p : String) : String :=
  let name := (splitChar p.data '/').getLastD []
  match lastDotIdx name with
  | some i =>
      if 0 < i ∧ i + 1 < name.length then String.mk (name.take i)
      else String.mk name
  | Option.none => String.mk name

/-- `s.replace("\\", "/")`: a single-character replacement, implemented
characterwise. -/
def replaceBackslash (s : String) : String :=
  String.mk (s.data.map (fun c => if c = '\\' then '/' else c))

/-- `GLTFSrc`: the loaded source document, reduced to what
`texture_idx2uri` reads — `textures` holds the `source` image index of
each entry of the document's `textures` array, `images` the `uri` of
each entry of its `images` array. -/
structure GLTFSrc where
  file : String
  src_dir : String
  textures : List Nat
  images : List String
deriving Repr, DecidableEq

/-- Python list indexing `l[i]` for an integer index (negative indices
count from the end). -/
def pyIndex {α : Type} (l : List α) (i : ℤ) : Except PyError α :=
  let j : ℤ := if i < 0 then (l.length : ℤ) + i else i
  if h : 0 ≤ j ∧ j.toNat < l.length then
    Except.ok (l.get ⟨j.toNat, h.2⟩)
  else
    Except.error PyError.indexError

/-- `GLTFSrc.texture_idx2uri`: `None` maps to `None`; an integer index
is resolved through the `textures` and `images` arrays and joined onto
the source directory. -/
def GLTFSrc.texture_idx2uri (src : GLTFSrc) (index : PyVal) :
    Except PyError (Option String) :=
  match index with
  | .none => Except.ok Option.none
  | .num q =>
      if q.den = 1 then do
        let texture_src ← pyIndex src.textures q.num
        let image_uri ← pyIndex src.images (texture_src : ℤ)
        Except.ok (some (pathJoin src.src_dir image_uri))
      else
        Except.error (PyError.typeError "list indices must be integers")
  | _ => Except.error (PyError.typeError "list indices must be integers")

/-- A source-derived uri (`Path | None`) as the `PyVal` stored in a
texture slot. -/
def uriOfOpt : Option String → PyVal
  | some s => PyVal.str s
  | Option.none => PyVal.none

/-! ## DXSpec texture slots (`dxspec_material_utils.py`) -/

/-- `DXSpec_TextureKey`: channel sources (uri, swizzle), compression
format, and target resolution. -/
structure TextureKey where
  sources : List (PyVal × String)
  format : String
  resolution : List PyVal
deriving Repr, DecidableEq

/-- The shared override-application tail of the five texture-slot
constructors: an optional `uri` replacement (forcing the slot's
has-texture swizzle), an optional modifier for the slot's numeric field
(routed through `modulate`), then a hard error on any leftover keys.  A
falsy override (`None`, `{}`, ...) leaves the slot unchanged; a truthy
non-dict override errors. -/
def applyTexOverride (uriSwizzle modKey : String) (uri0 : PyVal) (sw0 : String)
    (val0 : PyVal) (ov : PyVal) : Except PyError (PyVal × String × PyVal) :=
  if pyTruthy ov then
    match ov with
    | .dict d =>
        let (u?, d1) := popD d "uri"
        let uri1 := u?.getD uri0
        let sw1 := if u?.isSome then uriSwizzle else sw0
        let (m?, d2) := popD d1 modKey
        match m? with
        | Option.none =>
            if d2 = [] then Except.ok (uri1, sw1, val0)
            else Except.error (PyError.unknownOverrides (akeys d2))
        | some mv => do
            let val1 ← modulate val0 mv
            if d2 = [] then Except.ok (uri1, sw1, val1)
            else Except.error (PyError.unknownOverrides (akeys d2))
    | _ => Except.error (PyError.typeError "override record is not a dict")
  else
    Except.ok (uri0, sw0, val0)

/-- `DXSpec_NormalTexture`: uri, swizzle and raw scale. -/
structure DXSpec_NormalTexture where
  uri : PyVal
  swizzle : String
  scale : PyVal
deriving Repr, DecidableEq

/-- `DXSpec_NormalTexture.__init__`: absent texture gives the flat
sentinel `hh`, otherwise swizzle `rg` with the source scale; then
override keys `uri` (swizzle `rg`) and `scale`. -/
def DXSpec_NormalTexture.fromSource (obj : Option GLTF_NormalTexture)
    (src : GLTFSrc) : Except PyError (PyVal × String × PyVal) :=
  match obj with
  | Option.none => pure (PyVal.none, "hh", PyVal.num 1)
  | some nt => do
      let u ← src.texture_idx2uri nt.index
      pure (uriOfOpt u, "rg", nt.scale)

/-- Override application tail of `DXSpec_NormalTexture.__init__`. -/
def DXSpec_NormalTexture.init (obj : Option GLTF_NormalTexture) (src : GLTFSrc)
    (ov : PyVal) : Except PyError DXSpec_NormalTexture := do
  let base ← DXSpec_NormalTexture.fromSource obj src
  let (uri1, sw1, sc1) ← applyTexOverride "rg" "scale" base.1 base.2.1 base.2.2 ov
  pure ⟨uri1, sw1, sc1⟩

/-- `DXSpec_NormalTexture.get_texture_key`: fixed format `BC5_UNORM`. -/
def DXSpec_NormalTexture.get_texture_key (t : DXSpec_NormalTexture)
    (resolution : List PyVal) : TextureKey :=
  ⟨[(t.uri, t.swizzle)], "BC5_UNORM", resolution⟩

/-- `DXSpec_OcclusionTexture`. -/
structure DXSpec_OcclusionTexture where
  uri : PyVal
  swizzle : String
  strength : PyVal
deriving Repr, DecidableEq

/-- `DXSpec_OcclusionTexture.__init__`: constant `1` swizzle with
strength 1.0 when absent, otherwise swizzle `r` with the source
strength; override keys `uri` (swizzle `r`) and `strength`. -/
def DXSpec_OcclusionTexture.fromSource (obj : Option GLTF_OcclusionTexture)
    (src : GLTFSrc) : Except PyError (PyVal × String × PyVal) :=
  match obj with
  | Option.none => pure (PyVal.none, "1", PyVal.num 1)
  | some ot => do
      let u ← src.texture_idx2uri ot.index
      pure (uriOfOpt u, "r", ot.strength)

/-- Override application tail of `DXSpec_OcclusionTexture.__init__`. -/
def DXSpec_OcclusionTexture.init (obj : Option GLTF_OcclusionTexture)
    (src : GLTFSrc) (ov : PyVal) : Except PyError DXSpec_OcclusionTexture := do
  let base ← DXSpec_OcclusionTexture.fromSource obj src
  let (uri1, sw1, st1) ← applyTexOverride "r" "strength" base.1 base.2.1 base.2.2 ov
  pure ⟨uri1, sw1, st1⟩

/-- Python `f or default` for an optional float `f` (`None` and `0.0`
are both falsy and fall back to the default). -/
def orFloat (f : Option ℚ) (d : ℚ) : ℚ :=
  match f with
  | some q => if q = 0 then d else q
  | Option.none => d

/-- `DXSpec_RoughnessTexture.default_strength`. -/
def DXSpec_RoughnessTexture.default_strength : ℚ := 1

/-- `DXSpec_RoughnessTexture`. -/
structure DXSpec_RoughnessTexture where
  uri : PyVal
  swizzle : String
  strength : PyVal
deriving Repr, DecidableEq

/-- `DXSpec_RoughnessTexture.__init__`: strength is
`roughness_factor or 1.0` with a metallic-roughness texture (swizzle
`g`), `roughness_factor or default_strength` without one (swizzle `1`);
override keys `uri` (swizzle `g`) and `strength`. -/
def DXSpec_RoughnessTexture.fromSource (obj : Option GLTF_PBRMetallicRoughness)
    (src : GLTFSrc) : Except PyError (PyVal × String × PyVal) :=
  match obj with
  | Option.none =>
      pure (PyVal.none, "1", PyVal.num DXSpec_RoughnessTexture.default_strength)
  | some blk =>
      match blk.metallic_roughness_texture with
      | some t => do
          let u ← src.texture_idx2uri t.index
          pure (uriOfOpt u, "g", PyVal.num (orFloat blk.roughness_factor 1))
      | Option.none =>
          pure (PyVal.none, "1",
            PyVal.num (orFloat blk.roughness_factor DXSpec_RoughnessTexture.default_strength))

/-- Override application tail of `DXSpec_RoughnessTexture.__init__`. -/
def DXSpec_RoughnessTexture.init (obj : Option GLTF_PBRMetallicRoughness)
    (src : GLTFSrc) (ov : PyVal) : Except PyError DXSpec_RoughnessTexture := do
  let base ← DXSpec_RoughnessTexture.fromSource obj src
  let (uri1, sw1, st1) ← applyTexOverride "g" "strength" base.1 base.2.1 base.2.2 ov
  pure ⟨uri1, sw1, st1⟩

/-- `DXSpec_MetalnessTexture.default_strength`. -/
def DXSpec_MetalnessTexture.default_strength : ℚ := 0

/-- `DXSpec_MetalnessTexture`. -/
structure DXSpec_MetalnessTexture where
  uri : PyVal
  swizzle : String
  strength : PyVal
deriving Repr, DecidableEq

/-- `DXSpec_MetalnessTexture.__init__`: strength is
`metallic_factor or 1.0` with a metallic-roughness texture (swizzle
`b`), `metallic_factor or default_strength` (= 0.0) without one
(swizzle `1`); override keys `uri` (swizzle `b`) and `strength`. -/
def DXSpec_MetalnessTexture.fromSource (obj : Option GLTF_PBRMetallicRoughness)
    (src : GLTFSrc) : Except PyError (PyVal × String × PyVal) :=
  match obj with
  | Option.none =>
      pure (PyVal.none, "1", PyVal.num DXSpec_MetalnessTexture.default_strength)
  | some blk =>
      match blk.metallic_roughness_texture with
      | some t => do
          let u ← src.texture_idx2uri t.index
          pure (uriOfOpt u, "b", PyVal.num (orFloat blk.metallic_factor 1))
      | Option.none =>
          pure (PyVal.none, "1",
            PyVal.num (orFloat blk.metallic_factor DXSpec_MetalnessTexture.default_strength))

/-- Override application tail of `DXSpec_MetalnessTexture.__init__`. -/
def DXSpec_MetalnessTexture.init (obj : Option GLTF_PBRMetallicRoughness)
    (src : GLTFSrc) (ov : PyVal) : Except PyError DXSpec_MetalnessTexture := do
  let base ← DXSpec_MetalnessTexture.fromSource obj src
  let (uri1, sw1, st1) ← applyTexOverride "b" "strength" base.1 base.2.1 base.2.2 ov
  pure ⟨uri1, sw1, st1⟩

/-- `DXSpec_DiffuseTexture`. -/
structure DXSpec_DiffuseTexture where
  uri : PyVal
  swizzle : String
  strength : PyVal
deriving Repr, DecidableEq

/-- `DXSpec_DiffuseTexture.__init__`: without a base-color texture the
swizzle is the constant `1111`, otherwise `rgb1` for OPAQUE blend mode
and `rgba` otherwise; strength is the base-color factor; override keys
`uri` (forcing `rgb1`/`rgba`) and `strength`. -/
def DXSpec_DiffuseTexture.fromSource (obj : Option GLTF_PBRMetallicRoughness)
    (alpha_mode : String) (src : GLTFSrc) : Except PyError (PyVal × String × PyVal) :=
  match obj with
  | Option.none =>
      pure (PyVal.none, "1111",
        PyVal.tuple [PyVal.num 1, PyVal.num 1, PyVal.num 1, PyVal.num 1])
  | some blk =>
      match blk.base_color_texture with
      | some t => do
          let u ← src.texture_idx2uri t.index
          pure (uriOfOpt u, if alpha_mode = "OPAQUE" then "rgb1" else "rgba",
            PyVal.tuple blk.base_color_factor)
      | Option.none =>
          pure (PyVal.none, "1111", PyVal.tuple blk.base_color_factor)

/-- Override application tail of `DXSpec_DiffuseTexture.__init__`. -/
def DXSpec_DiffuseTexture.init (obj : Option GLTF_PBRMetallicRoughness)
    (alpha_mode : String) (src : GLTFSrc) (ov : PyVal) :
    Except PyError DXSpec_DiffuseTexture := do
  let base ← DXSpec_DiffuseTexture.fromSource obj alpha_mode src
  let (uri1, sw1, st1) ← applyTexOverride
    (if alpha_mode = "OPAQUE" then "rgb1" else "rgba") "strength"
    base.1 base.2.1 base.2.2 ov
  pure ⟨uri1, sw1, st1⟩

/-- `DXSpec_DiffuseTexture.get_texture_key`: `BC1_UNORM_SRGB` when the
swizzle's last character is `'1'`, `BC3_UNORM_SRGB` otherwise (slot
swizzles are never empty). -/
def DXSpec_DiffuseTexture.get_texture_key (t : DXSpec_DiffuseTexture)
    (resolution : List PyVal) : TextureKey :=
  ⟨[(t.uri, t.swizzle)],
    if t.swizzle.data.getLastD '?' = '1' then "BC1_UNORM_SRGB" else "BC3_UNORM_SRGB",
    resolution⟩

/-- `DXSpec_OcclusionRoughnessMetalness`. -/
structure DXSpec_OcclusionRoughnessMetalness where
  occlusion : DXSpec_OcclusionTexture
  roughness : DXSpec_RoughnessTexture
  metalness : DXSpec_MetalnessTexture
deriving Repr, DecidableEq

/-- `DXSpec_OcclusionRoughnessMetalness.__init__`: pops the
`occlusion`, `roughness` and `metalness` sub-records off the caller's
override dict (returned alongside the slot, since the source mutates the
caller's dict in place). -/
def DXSpec_OcclusionRoughnessMetalness.init (obj : GLTF_Material) (src : GLTFSrc)
    (ov : PyDict) :
    Except PyError (DXSpec_OcclusionRoughnessMetalness × PyDict) := do
  let occ ← DXSpec_OcclusionTexture.init obj.occlusion_texture src
    ((popD ov "occlusion").1.getD PyVal.none)
  let rough ← DXSpec_RoughnessTexture.init obj.pbr_metallic_roughness src
    ((popD (popD ov "occlusion").2 "roughness").1.getD PyVal.none)
  let metal ← DXSpec_MetalnessTexture.init obj.pbr_metallic_roughness src
    ((popD (popD (popD ov "occlusion").2 "roughness").2 "metalness").1.getD PyVal.none)
  pure (⟨occ, rough, metal⟩,
    (popD (popD (popD ov "occlusion").2 "roughness").2 "metalness").2)

/-- `DXSpec_OcclusionRoughnessMetalness.get_texture_key`: the three
sub-slot channel sources in order, fixed format `BC7_UNORM`. -/
def DXSpec_OcclusionRoughnessMetalness.get_texture_key
    (t : DXSpec_OcclusionRoughnessMetalness) (resolution : List PyVal) : TextureKey :=
  ⟨[(t.occlusion.uri, t.occlusion.swizzle), (t.roughness.uri, t.roughness.swizzle),
    (t.metalness.uri, t.metalness.swizzle)], "BC7_UNORM", resolution⟩

/-- `DXSpec_EmissiveTexture`: the source constructor can return with
the `uri`/`swizzle`/`factor` attributes never assigned (when neither
texture nor factor is present and the override is truthy-or-empty), so
each field is wrapped in `Option`, `Option.none` meaning "attribute was
never assigned". -/
structure DXSpec_EmissiveTexture where
  uri : Option PyVal
  swizzle : Option String
  factor : Option PyVal
deriving Repr, DecidableEq

/-- Truthiness of `obj.emissive_factor` (a tuple or `None`). -/
def emissiveFactorTruthy (obj : GLTF_Material) : Bool :=
  match obj.emissive_factor with
  | some l => l ≠ []
  | Option.none => false

/-- The attribute-assignment head of `DXSpec_EmissiveTexture.__init__`:
attributes are assigned only when the material declares an emissive
texture or a truthy emissive factor; with neither present, a `None`
override raises, and any other override leaves all attributes
unassigned. -/
def DXSpec_EmissiveTexture.fromSource (obj : GLTF_Material) (src : GLTFSrc)
    (ov : PyVal) : Except PyError DXSpec_EmissiveTexture :=
  if obj.emissive_texture.isSome ∨ emissiveFactorTruthy obj then do
    let u ← match obj.emissive_texture with
      | some ti => src.texture_idx2uri ti.index
      | Option.none => pure Option.none
    pure ⟨some (uriOfOpt u),
      some (if obj.emissive_texture.isSome then "rgb" else "111"),
      some (if emissiveFactorTruthy obj then PyVal.tuple (obj.emissive_factor.getD [])
        else PyVal.tuple [PyVal.num 1, PyVal.num 1, PyVal.num 1])⟩
  else if ov = PyVal.none then
    Except.error (PyError.valueError
      "Cannot construct emissive texture if neither texture nor factor specified!")
  else
    pure ⟨Option.none, Option.none, Option.none⟩

/-- The override-application tail of `DXSpec_EmissiveTexture.__init__`:
an optional `uri` replacement (forcing swizzle `rgb`), an optional
`factor` modifier (reading the possibly-unassigned `factor` attribute),
then a hard error on leftover keys. -/
def DXSpec_EmissiveTexture.applyOverride (st0 : DXSpec_EmissiveTexture)
    (ov : PyVal) : Except PyError DXSpec_EmissiveTexture :=
  if pyTruthy ov then
    match ov with
    | .dict d =>
        let st1 := match (popD d "uri").1 with
          | some v => { st0 with uri := some v, swizzle := some "rgb" }
          | Option.none => st0
        match (popD (popD d "uri").2 "factor").1 with
        | some mv =>
            match st1.factor with
            | Option.none => Except.error (PyError.attributeError "factor")
            | some cur => do
                let nf ← modulate cur mv
                if (popD (popD d "uri").2 "factor").2 = [] then
                  pure { st1 with factor := some nf }
                else
                  Except.error (PyError.unknownOverrides
                    (akeys (popD (popD d "uri").2 "factor").2))
        | Option.none =>
            if (popD (popD d "uri").2 "factor").2 = [] then pure st1
            else
              Except.error (PyError.unknownOverrides
                (akeys (popD (popD d "uri").2 "factor").2))
    | _ => Except.error (PyError.typeError "override record is not a dict")
  else
    pure st0

/-- `DXSpec_EmissiveTexture.__init__`. -/
def DXSpec_EmissiveTexture.init (obj : GLTF_Material) (src : GLTFSrc)
    (ov : PyVal) : Except PyError DXSpec_EmissiveTexture := do
  let st0 ← DXSpec_EmissiveTexture.fromSource obj src ov
  DXSpec_EmissiveTexture.applyOverride st0 ov

/-- `DXSpec_EmissiveTexture.get_texture_key`: fixed format `BC6H_UF16`;
reading a never-assigned `uri`/`swizzle` attribute raises. -/
def DXSpec_EmissiveTexture.get_texture_key (t : DXSpec_EmissiveTexture)
    (resolution : List PyVal) : Except PyError TextureKey :=
  match t.uri, t.swizzle with
  | some u, some s => Except.ok ⟨[(u, s)], "BC6H_UF16", resolution⟩
  | _, _ => Except.error (PyError.attributeError "uri")

/-! ## DXSpec material assembly -/

/-- `DXSpec_Material`: the canonical per-material record. -/
structure DXSpec_Material where
  name : String
  src_file : String
  diffuse : DXSpec_DiffuseTexture
  normal : DXSpec_NormalTexture
  orm : DXSpec_OcclusionRoughnessMetalness
  emissive : Option DXSpec_EmissiveTexture
  blend_mode : String
  alpha_cutoff : PyVal
  double_sided : Bool
  resolution : List PyVal
deriving Repr, DecidableEq

/-- The blend-mode assertion of `DXSpec_Material.__init__`:
`assert self.blend_mode in ['OPAQUE', 'MASK', 'BLEND']`. -/
def checkBlendMode (v : PyVal) : Except PyError String :=
  match v with
  | .str s =>
      if s = "OPAQUE" ∨ s = "MASK" ∨ s = "BLEND" then pure s
      else Except.error PyError.assertionError
  | _ => Except.error PyError.assertionError

/-- The alpha-cutoff assertion of `DXSpec_Material.__init__`:
`assert isinstance(self.alpha_cutoff, int | float | NoneType)` (note
Python bools are ints). -/
def checkAlphaCutoff (v : PyVal) : Except PyError PyVal :=
  match v with
  | .num _ => pure v
  | .bool _ => pure v
  | .none => pure v
  | _ => Except.error PyError.assertionError

/-- The double-sided assertion of `DXSpec_Material.__init__`:
`assert isinstance(self.double_sided, bool)`. -/
def checkDoubleSided (v : PyVal) : Except PyError Bool :=
  match v with
  | .bool b => pure b
  | _ => Except.error PyError.assertionError

/-- The conditional emissive-slot construction of
`DXSpec_Material.__init__`: builds the slot iff the material declares an
emissive texture, a truthy emissive factor, or the override names
`emissive`; returns the slot (if any) and the remaining override dict. -/
def DXSpec_Material.emissiveStep (obj : GLTF_Material) (src : GLTFSrc)
    (ov6 : PyDict) :
    Except PyError (Option DXSpec_EmissiveTexture × PyDict) :=
  if obj.emissive_texture.isSome ∨ emissiveFactorTruthy obj ∨
      (alookup ov6 "emissive").isSome then do
    let e ← DXSpec_EmissiveTexture.init obj src
      ((popD ov6 "emissive").1.getD PyVal.none)
    pure (some e, (popD ov6 "emissive").2)
  else
    pure ((Option.none : Option DXSpec_EmissiveTexture), ov6)

/-- `DXSpec_Material.__init__`: pops the scalar overrides (with
`assert`-checked types), builds the four slots (the ORM sub-records are
popped off the same dict), conditionally constructs the emissive slot,
pops `resolution` (default `[-1, -1]`), and errors on leftover keys. -/
def DXSpec_Material.init (obj : GLTF_Material) (src : GLTFSrc)
    (override : Option PyDict) : Except PyError DXSpec_Material := do
  let ov0 : PyDict := override.getD []
  let blend_mode ← checkBlendMode ((popD ov0 "blend_mode").1.getD obj.alpha_mode)
  let ov1 := (popD ov0 "blend_mode").2
  let alpha_cutoff ← checkAlphaCutoff ((popD ov1 "alpha_cutoff").1.getD
    (match obj.alpha_cutoff with
      | some q => PyVal.num q
      | Option.none => PyVal.none))
  let ov2 := (popD ov1 "alpha_cutoff").2
  let double_sided ← checkDoubleSided
    ((popD ov2 "double_sided").1.getD obj.double_sided)
  let ov3 := (popD ov2 "double_sided").2
  let diffuse ← DXSpec_DiffuseTexture.init obj.pbr_metallic_roughness blend_mode src
    ((popD ov3 "diffuse").1.getD PyVal.none)
  let ov4 := (popD ov3 "diffuse").2
  let normal ← DXSpec_NormalTexture.init obj.normal_texture src
    ((popD ov4 "normal").1.getD PyVal.none)
  let ov5 := (popD ov4 "normal").2
  let ormp ← DXSpec_OcclusionRoughnessMetalness.init obj src ov5
  let emp ← DXSpec_Material.emissiveStep obj src ormp.2
  let ov7 := emp.2
  let resolution ← pyIter ((popD ov7 "resolution").1.getD
    (PyVal.list [PyVal.num (-1), PyVal.num (-1)]))
  let ov8 := (popD ov7 "resolution").2
  if ov8 = [] then
    pure ⟨obj.name, src.file, diffuse, normal, ormp.1, emp.1, blend_mode,
      alpha_cutoff, double_sided, resolution⟩
  else
    Except.error (PyError.unknownOverrides (akeys ov8))

/-- `DXSpec_Material.get_diffuse_texture_key`. -/
def DXSpec_Material.get_diffuse_texture_key (m : DXSpec_Material) : TextureKey :=
  m.diffuse.get_texture_key m.resolution

/-- `DXSpec_Material.get_normal_texture_key`. -/
def DXSpec_Material.get_normal_texture_key (m : DXSpec_Material) : TextureKey :=
  m.normal.get_texture_key m.resolution

/-- `DXSpec_Material.get_orm_texture_key`. -/
def DXSpec_Material.get_orm_texture_key (m : DXSpec_Material) : TextureKey :=
  m.orm.get_texture_key m.resolution

/-- `DXSpec_Material.get_emissive_texture_key`: `None` when the material
has no emissive slot. -/
def DXSpec_Material.get_emissive_texture_key (m : DXSpec_Material) :
    Except PyError (Option TextureKey) :=
  match m.emissive with
  | some e => some <$> e.get_texture_key m.resolution
  | Option.none => Except.ok Option.none

/-! ## Texture key grouping (`DXSpec_TextureKeysContainer`) -/

/-- `DefaultDict(list)[key].append(name)`: appends a material name to
the bucket of `key`, creating the bucket at the end on first use. -/
def addKeyName (acc : List (TextureKey × List String)) (k : TextureKey)
    (n : String) : List (TextureKey × List String) :=
  match acc with
  | [] => [(k, [n])]
  | (k0, vs) :: rest =>
      if k = k0 then (k0, vs ++ [n]) :: rest else (k0, vs) :: addKeyName rest k n

/-- The key→materials map of one always-present slot kind, built by
iterating the material database in order. -/
def key2listSlot (getKey : DXSpec_Material → TextureKey)
    (db : List (String × DXSpec_Material)) : List (TextureKey × List String) :=
  db.foldl (fun acc (nm, m) => addKeyName acc (getKey m) nm) []

/-- The key→materials map of the emissive slot kind (whose key
derivation can be absent or raise). -/
def key2listEmissive (db : List (String × DXSpec_Material)) :
    Except PyError (List (TextureKey × List String)) :=
  db.foldlM (fun acc (nm, m) => do
    match ← m.get_emissive_texture_key with
    | some k => pure (addKeyName acc k nm)
    | Option.none => pure acc) []

/-- The material-name→key map of a slot kind, flattened from its
key→materials map (`{v: k for k, vs in ... for v in vs}`). -/
def str2keySlot (k2l : List (TextureKey × List String)) :
    List (String × TextureKey) :=
  k2l.flatMap (fun kvs => kvs.2.map (fun v => (v, kvs.1)))

/-- `DXSpec_TextureKeysContainer`: per-slot key→materials and
material→key maps. -/
structure TextureKeysContainer where
  diffuse : List (TextureKey × List String)
  normal : List (TextureKey × List String)
  orm : List (TextureKey × List String)
  emissive : List (TextureKey × List String)
deriving Repr, DecidableEq

/-- `DXSpec_TextureKeysContainer.__init__` (the key→list half; the
str2key half is `str2keySlot` of each field). -/
def buildKeysContainer (db : List (String × DXSpec_Material)) :
    Except PyError TextureKeysContainer := do
  let em ← key2listEmissive db
  pure ⟨key2listSlot DXSpec_Material.get_diffuse_texture_key db,
    key2listSlot DXSpec_Material.get_normal_texture_key db,
    key2listSlot DXSpec_Material.get_orm_texture_key db, em⟩

/-! ## Output name folding (`DXSpec_TextureSpecContainer`) -/

/-- `DXSpec_TextureSpecContainer.name_fold`: collect the non-`None`
source paths of the key's channel sources; no paths give the slot's
default sentinel, exactly one distinct path folds to its stem plus
`.dds`, several distinct paths are a hard error. -/
def name_fold (key : TextureKey) (default : String) : Except PyError String :=
  let paths := (key.sources.map Prod.fst).filter (· ≠ PyVal.none)
  match paths with
  | [] => Except.ok default
  | p :: rest =>
      if rest.all (· = p) then
        match p with
        | .str s => Except.ok (replaceBackslash (pathStem s ++ ".dds"))
        | _ => Except.error (PyError.attributeError "stem")
      else
        Except.error (PyError.valueError "Cannot fold")

/-- The registration loop body of `DXSpec_TextureSpecContainer.__init__`
for one slot kind: fold each key to a name, hard-erroring when the name
or the key was already registered, never overwriting. Returns the
name→key map (`str2key`) and the key→name map (`key2str`). -/
def buildNamesGo (default : String) :
    List TextureKey → List (String × TextureKey) → List (TextureKey × String) →
    Except PyError (List (String × TextureKey) × List (TextureKey × String))
  | [], outs, inv => Except.ok (outs, inv)
  | k :: ks, outs, inv => do
      let n ← name_fold k default
      if (alookup outs n).isSome then
        Except.error (PyError.valueError "Outname already exists!!")
      else if (alookup inv k).isSome then
        Except.error (PyError.valueError "Outname inverse already exists!!")
      else
        buildNamesGo default ks (outs ++ [(n, k)]) (inv ++ [(k, n)])

/-- One slot kind's pass of `DXSpec_TextureSpecContainer.__init__`. -/
def buildNames (ks : List TextureKey) (default : String) :
    Except PyError (List (String × TextureKey) × List (TextureKey × String)) :=
  buildNamesGo default ks [] []

/-- `DXSpec_TextureSpecContainer`: per-slot name→key and key→name maps. -/
structure TextureSpecContainer where
  diffuse_str2key : List (String × TextureKey)
  diffuse_key2str : List (TextureKey × String)
  normal_str2key : List (String × TextureKey)
  normal_key2str : List (TextureKey × String)
  orm_str2key : List (String × TextureKey)
  orm_key2str : List (TextureKey × String)
  emissive_str2key : List (String × TextureKey)
  emissive_key2str : List (TextureKey × String)
deriving Repr, DecidableEq

/-- `DXSpec_TextureSpecContainer.__init__`: runs the registration loop
over the four slot kinds in order, with their sentinel default names. -/
def buildSpecContainer (kc : TextureKeysContainer) :
    Except PyError TextureSpecContainer := do
  let (d_outs, d_inv) ← buildNames (akeys kc.diffuse) "$DEFAULT_DIFFUSE"
  let (n_outs, n_inv) ← buildNames (akeys kc.normal) "$DEFAULT_NORMAL"
  let (o_outs, o_inv) ← buildNames (akeys kc.orm) "$DEFAULT_ORM"
  let (e_outs, e_inv) ← buildNames (akeys kc.emissive) "$DEFAULT_EMISSIVE"
  pure ⟨d_outs, d_inv, n_outs, n_inv, o_outs, o_inv, e_outs, e_inv⟩

/-! ## Material→texture resolution (`DXSpec_Mat2TextureContainer`) -/

/-- One slot of `DXSpec_Mat2TextureContainer.__init__`:
`{mat_name: key2str[key] for mat_name, key in str2key.items()}` (a
missing key would be a KeyError). -/
def mat2texSlot : List (String × TextureKey) → List (TextureKey × String) →
    Except PyError (List (String × String))
  | [], _ => Except.ok []
  | (nm, k) :: rest, k2s =>
      match alookup k2s k with
      | some s => do
          let tl ← mat2texSlot rest k2s
          pure ((nm, s) :: tl)
      | Option.none => Except.error (PyError.keyError "texture key")

/-- `DXSpec_Mat2TextureContainer`: per-slot material-name→output-name
tables. -/
structure Mat2TextureContainer where
  diffuse : List (String × String)
  normal : List (String × String)
  orm : List (String × String)
  emissive : List (String × String)
deriving Repr, DecidableEq

/-- `DXSpec_Mat2TextureContainer.__init__`. -/
def buildMat2Texture (kc : TextureKeysContainer) (sc : TextureSpecContainer) :
    Except PyError Mat2TextureContainer := do
  let d ← mat2texSlot (str2keySlot kc.diffuse) sc.diffuse_key2str
  let n ← mat2texSlot (str2keySlot kc.normal) sc.normal_key2str
  let o ← mat2texSlot (str2keySlot kc.orm) sc.orm_key2str
  let e ← mat2texSlot (str2keySlot kc.emissive) sc.emissive_key2str
  pure ⟨d, n, o, e⟩

/-- The container stages of `__main__.main` after material parsing: key
grouping, output-name folding, and the material→texture table. -/
def runContainers (db : List (String × DXSpec_Material)) :
    Except PyError Mat2TextureContainer := do
  let kc ← buildKeysContainer db
  let sc ← buildSpecContainer kc
  buildMat2Texture kc sc

/-! ## General helpers for the proofs -/

/-- A `{op, value}` modifier directive. -/
def directive (op : String) (v : PyVal) : PyVal :=
  PyVal.dict [("op", PyVal.str op), ("value", v)]

/-- A numeric vector (Python tuple of floats). -/
def vecQ (l : List ℚ) : PyVal :=
  PyVal.tuple (l.map PyVal.num)

@[simp]
theorem exbind_ok {α β : Type} (a : α) (f : α → Except PyError β) :
    (Except.ok a >>= f : Except PyError β) = f a := rfl

@[simp]
theorem exbind_err {α β : Type} (e : PyError) (f : α → Except PyError β) :
    (Except.error e >>= f : Except PyError β) = Except.error e := rfl

theorem exceptBind_ok {α β : Type} {x : Except PyError α} {f : α → Except PyError β}
    {b : β} (h : (x >>= f) = Except.ok b) :
    ∃ a, x = Except.ok a ∧ f a = Except.ok b := by
  cases x with
  | ok a => exact ⟨a, rfl, h⟩
  | error e => exact absurd h (by simp)

@[simp]
theorem all_is_numeric_map_num (l : List ℚ) :
    (l.map PyVal.num).all is_numeric = true := by
  simp [List.all_map, is_numeric, Function.comp]

theorem isns_vecQ (l : List ℚ) : is_numeric_sequence (vecQ l) = true := by
  simp [vecQ, is_numeric_sequence, all_is_numeric_map_num]

/-- Lifting a successful `_modulate` run through the shape assertion. -/
theorem modulate_eq_of {original modifier out : PyVal}
    (h : _modulate original modifier = Except.ok out)
    (h1 : is_numeric original = is_numeric out)
    (h2 : is_numeric_sequence original = is_numeric_sequence out) :
    modulate original modifier = Except.ok out := by
  simp [modulate, h, h1, h2]

/-! ## Concrete fixtures used by the witnesses and counterexamples -/

/-- A one-texture source document: texture 0 is image 0, `tex.png`. -/
def src1 : GLTFSrc := ⟨"model", "srcdir", [0], ["tex.png"]⟩

/-- A metallic-roughness block whose base color references texture 0. -/
def pbrTex : GLTF_PBRMetallicRoughness :=
  ⟨[PyVal.num 1, PyVal.num 1, PyVal.num 1, PyVal.num 1], some ⟨PyVal.num 0⟩,
    Option.none, Option.none, Option.none⟩

/-- Source material "A": opaque, base-color texture 0, defaults otherwise. -/
def gmA : GLTF_Material :=
  ⟨"A", some pbrTex, Option.none, Option.none, Option.none, Option.none,
    PyVal.str "OPAQUE", Option.none, PyVal.bool false⟩

/-- Source material "B": identical to "A" except for the name. -/
def gmB : GLTF_Material := { gmA with name := "B" }

/-- A material identical to "A" but with BLEND alpha mode. -/
def gmBlend : GLTF_Material := { gmA with name := "C", alpha_mode := PyVal.str "BLEND" }

/-- A material with no optional blocks at all. -/
def gmPlain : GLTF_Material :=
  ⟨"P", Option.none, Option.none, Option.none, Option.none, Option.none,
    PyVal.str "OPAQUE", Option.none, PyVal.bool false⟩

/-- A raw MASK material that declares `alphaCutoff` (the glTF 2.0
spelling) as `0.25`. -/
def jsonMask : PyDict :=
  [("name", PyVal.str "m"), ("alphaMode", PyVal.str "MASK"),
   ("alphaCutoff", PyVal.num ((1 : ℚ) / 4))]

/-- A metallic-roughness block with a metallic-roughness texture, a
declared roughness factor of exactly `0.0`, and no metallic factor. -/
def blkC5 : GLTF_PBRMetallicRoughness :=
  ⟨[PyVal.num 1, PyVal.num 1, PyVal.num 1, PyVal.num 1], Option.none,
    Option.none, some 0, some ⟨PyVal.num 0⟩⟩

/-! ## C3 — literal modifiers -/

/-- C3 counterexample: the claim says a literal modifier is passed
through "regardless of original's shape, including when the shapes
differ", but `modulate` asserts shape preservation on every result, so
replacing a scalar original with a vector literal raises
AssertionError instead of returning the literal. -/
theorem modulate_literal_shape_mismatch_cex :
    modulate (PyVal.num 1) (PyVal.tuple [PyVal.num 1, PyVal.num 2]) =
      Except.error PyError.assertionError := by rfl

/-- C3 (amended): a literal (non-dict) modifier whose scalar/vector
shape agrees with the original is returned unchanged by `modulate`;
when the shapes disagree the shape assertion fails instead. -/
theorem modulate_literal_passthrough (original modifier : PyVal)
    (hd : modifier.isDict = false)
    (h1 : is_numeric original = is_numeric modifier)
    (h2 : is_numeric_sequence original = is_numeric_sequence modifier) :
    modulate original modifier = Except.ok modifier := by
  have hm : _modulate original modifier = Except.ok modifier := by
    cases modifier with
    | dict d => simp [PyVal.isDict] at hd
    | none => rfl
    | bool b => rfl
    | num q => rfl
    | str s => rfl
    | list l => rfl
    | tuple l => rfl
  simp [modulate, hm, h1, h2]

/-- C3 witness: a scalar literal replaces a scalar original. -/
theorem modulate_literal_passthrough_witness :
    modulate (PyVal.num 1) (PyVal.num 7) = Except.ok (PyVal.num 7) :=
  modulate_literal_passthrough (PyVal.num 1) (PyVal.num 7) (by decide) (by decide)
    (by decide)

/-! ## C10 — directive modifiers preserve shape -/

/-- C10: directive modifiers preserve the original's shape:
scalar ⊕ scalar stays scalar, vector ⊕ scalar broadcasts elementwise,
equal-length vectors combine elementwise, and mismatched vector lengths
are a hard error. -/
theorem modulate_directive_shapes (a b : ℚ) (l c d e : List ℚ)
    (hcd : c.length = d.length) (hce : c.length ≠ e.length) :
    modulate (PyVal.num a) (directive "mult" (PyVal.num b)) =
      Except.ok (PyVal.num (a * b)) ∧
    modulate (vecQ l) (directive "add" (PyVal.num b)) =
      Except.ok (vecQ (l.map (· + b))) ∧
    modulate (vecQ c) (directive "add" (vecQ d)) =
      Except.ok (vecQ (List.zipWith (· + ·) c d)) ∧
    ∃ err, modulate (vecQ c) (directive "add" (vecQ e)) = Except.error err := by
  refine ⟨?_, ?_, ?_, ?_⟩
  · have h : _modulate (PyVal.num a) (directive "mult" (PyVal.num b)) =
        Except.ok (PyVal.num (a * b)) := by
      simp [_modulate, directive, alookup, is_numeric, is_numeric_sequence, numVal]
    exact modulate_eq_of h rfl rfl
  · have h : _modulate (vecQ l) (directive "add" (PyVal.num b)) =
        Except.ok (vecQ (l.map (· + b))) := by
      simp [_modulate, directive, alookup, is_numeric, is_numeric_sequence,
        numVal, vecQ, List.map_map, all_is_numeric_map_num, Function.comp]
    exact modulate_eq_of h rfl (by rw [isns_vecQ, isns_vecQ])
  · have h : _modulate (vecQ c) (directive "add" (vecQ d)) =
        Except.ok (vecQ (List.zipWith (· + ·) c d)) := by
      simp [_modulate, directive, alookup, is_numeric, is_numeric_sequence,
        numVal, vecQ, all_is_numeric_map_num, hcd, List.zipWith_map,
        List.map_zipWith]
    exact modulate_eq_of h rfl (by rw [isns_vecQ, isns_vecQ])
  · have h : _modulate (vecQ c) (directive "add" (vecQ e)) =
        Except.error (PyError.valueError "must be equal length") := by
      simp [_modulate, directive, alookup, is_numeric, is_numeric_sequence,
        numVal, vecQ, all_is_numeric_map_num, hce]
    refine ⟨PyError.valueError "must be equal length", ?_⟩
    simp [modulate, h]

/-- C10 witness at concrete inputs. -/
theorem modulate_directive_shapes_witness :
    modulate (PyVal.num 2) (directive "mult" (PyVal.num 3)) =
      Except.ok (PyVal.num (2 * 3)) ∧
    modulate (vecQ [1, 2]) (directive "add" (PyVal.num 3)) =
      Except.ok (vecQ ([1, 2].map (· + 3))) ∧
    modulate (vecQ [1, 2]) (directive "add" (vecQ [3, 4])) =
      Except.ok (vecQ (List.zipWith (· + ·) [1, 2] [3, 4])) ∧
    ∃ err, modulate (vecQ [1, 2]) (directive "add" (vecQ [5, 6, 7])) =
      Except.error err :=
  modulate_directive_shapes 2 3 [1, 2] [1, 2] [3, 4] [5, 6, 7] (by decide) (by decide)

/-! ## C5 — roughness/metalness strength derivation -/

/-- C5 counterexample: with the metallic-roughness block present, a
declared roughness factor of exactly `0.0` yields strength `1.0` (not
`0.0` as the claim states), because the source uses Python
`factor or default` which treats `0.0` as unset; and with a
metallic-roughness texture present an *unset* metallic factor yields
strength `1.0`, not the claimed default constant `0.0`. -/
theorem roughness_zero_factor_cex :
    (DXSpec_RoughnessTexture.init (some blkC5) src1 PyVal.none).map
      DXSpec_RoughnessTexture.strength = Except.ok (PyVal.num 1) ∧
    blkC5.roughness_factor = some 0 ∧
    blkC5.metallic_roughness_texture.isSome = true ∧
    PyVal.num 1 ≠ PyVal.num 0 ∧
    (DXSpec_MetalnessTexture.init (some blkC5) src1 PyVal.none).map
      DXSpec_MetalnessTexture.strength = Except.ok (PyVal.num 1) ∧
    blkC5.metallic_factor = Option.none ∧
    PyVal.num 1 ≠ PyVal.num DXSpec_MetalnessTexture.default_strength :=
  ⟨rfl, rfl, rfl, by decide, rfl, rfl, by decide⟩

/-- C5 (amended): with the metallic-roughness block present and no
override, the roughness strength equals the declared factor only when
that factor is nonzero; an unset or zero factor falls back to `1.0`.
The metalness strength likewise equals a nonzero declared metallic
factor; when unset or zero it falls back to `1.0` if a
metallic-roughness texture is present and to the default constant
`0.0` otherwise. -/
theorem roughness_metalness_strengths (blk : GLTF_PBRMetallicRoughness)
    (src : GLTFSrc) (r : DXSpec_RoughnessTexture) (m : DXSpec_MetalnessTexture)
    (hr : DXSpec_RoughnessTexture.init (some blk) src PyVal.none = Except.ok r)
    (hm : DXSpec_MetalnessTexture.init (some blk) src PyVal.none = Except.ok m) :
    r.strength = (match blk.roughness_factor with
      | some f => if f = 0 then PyVal.num 1 else PyVal.num f
      | Option.none => PyVal.num 1) ∧
    m.strength = (match blk.metallic_factor with
      | some f =>
          if f = 0 then
            (if blk.metallic_roughness_texture.isSome then PyVal.num 1
             else PyVal.num DXSpec_MetalnessTexture.default_strength)
          else PyVal.num f
      | Option.none =>
          if blk.metallic_roughness_texture.isSome then PyVal.num 1
          else PyVal.num DXSpec_MetalnessTexture.default_strength) := by
  cases htex : blk.metallic_roughness_texture with
  | none =>
      simp [DXSpec_RoughnessTexture.init, DXSpec_RoughnessTexture.fromSource,
        htex, applyTexOverride, pyTruthy] at hr
      simp [DXSpec_MetalnessTexture.init, DXSpec_MetalnessTexture.fromSource,
        htex, applyTexOverride, pyTruthy] at hm
      subst hr
      subst hm
      constructor
      · cases blk.roughness_factor with
        | none => simp [orFloat, DXSpec_RoughnessTexture.default_strength]
        | some f =>
            by_cases hf : f = 0 <;>
              simp [orFloat, hf, DXSpec_RoughnessTexture.default_strength]
      · cases blk.metallic_factor with
        | none => simp [orFloat]
        | some f => by_cases hf : f = 0 <;> simp [orFloat, hf]
  | some t =>
      cases hu : src.texture_idx2uri t.index with
      | error e =>
          simp [DXSpec_RoughnessTexture.init, DXSpec_RoughnessTexture.fromSource,
            htex, hu] at hr
      | ok u =>
          simp [DXSpec_RoughnessTexture.init, DXSpec_RoughnessTexture.fromSource,
            htex, hu, applyTexOverride, pyTruthy] at hr
          simp [DXSpec_MetalnessTexture.init, DXSpec_MetalnessTexture.fromSource,
            htex, hu, applyTexOverride, pyTruthy] at hm
          subst hr
          subst hm
          constructor
          · cases blk.roughness_factor with
            | none => simp [orFloat]
            | some f => by_cases hf : f = 0 <;> simp [orFloat, hf]
          · cases blk.metallic_factor with
            | none => simp [orFloat]
            | some f => by_cases hf : f = 0 <;> simp [orFloat, hf]

/-- C5 witness: the amended statement at the concrete fixture block. -/
theorem roughness_metalness_strengths_witness :
    (⟨PyVal.str "srcdir/tex.png", "g", PyVal.num 1⟩ :
        DXSpec_RoughnessTexture).strength = (match blkC5.roughness_factor with
      | some f => if f = 0 then PyVal.num 1 else PyVal.num f
      | Option.none => PyVal.num 1) ∧
    (⟨PyVal.str "srcdir/tex.png", "b", PyVal.num 1⟩ :
        DXSpec_MetalnessTexture).strength = (match blkC5.metallic_factor with
      | some f =>
          if f = 0 then
            (if blkC5.metallic_roughness_texture.isSome then PyVal.num 1
             else PyVal.num DXSpec_MetalnessTexture.default_strength)
          else PyVal.num f
      | Option.none =>
          if blkC5.metallic_roughness_texture.isSome then PyVal.num 1
          else PyVal.num DXSpec_MetalnessTexture.default_strength) :=
  roughness_metalness_strengths blkC5 src1
    ⟨PyVal.str "srcdir/tex.png", "g", PyVal.num 1⟩
    ⟨PyVal.str "srcdir/tex.png", "b", PyVal.num 1⟩ (by rfl) (by rfl)

/-! ## C6 — compression format per slot kind -/

/-- C6 counterexample: the diffuse compression format is not a fixed
constant of the slot kind — an opaque material with a base-color
texture gets `BC1_UNORM_SRGB` while an otherwise identical BLEND
material gets `BC3_UNORM_SRGB`. -/
theorem diffuse_format_not_fixed_cex :
    (DXSpec_Material.init gmA src1 Option.none).map
      (fun m => m.get_diffuse_texture_key.format) = Except.ok "BC1_UNORM_SRGB" ∧
    (DXSpec_Material.init gmBlend src1 Option.none).map
      (fun m => m.get_diffuse_texture_key.format) = Except.ok "BC3_UNORM_SRGB" ∧
    "BC1_UNORM_SRGB" ≠ "BC3_UNORM_SRGB" :=
  ⟨rfl, rfl, by decide⟩

/-- C6 (amended): the compression format is a fixed constant for the
normal (`BC5_UNORM`), ORM (`BC7_UNORM`) and emissive (`BC6H_UF16`)
slot kinds; the diffuse format instead depends on the derived swizzle —
with a base-color texture it is `BC1_UNORM_SRGB` for OPAQUE blend mode
and `BC3_UNORM_SRGB` otherwise, and without one it is
`BC1_UNORM_SRGB`. -/
theorem texture_key_formats :
    (∀ (t : DXSpec_NormalTexture) (res : List PyVal),
      (t.get_texture_key res).format = "BC5_UNORM") ∧
    (∀ (t : DXSpec_OcclusionRoughnessMetalness) (res : List PyVal),
      (t.get_texture_key res).format = "BC7_UNORM") ∧
    (∀ (t : DXSpec_EmissiveTexture) (res : List PyVal) (k : TextureKey),
      t.get_texture_key res = Except.ok k → k.format = "BC6H_UF16") ∧
    (∀ (blk : GLTF_PBRMetallicRoughness) (am : String) (src : GLTFSrc)
      (ti : GLTF_TextureInfo) (d : DXSpec_DiffuseTexture) (res : List PyVal),
      blk.base_color_texture = some ti →
      DXSpec_DiffuseTexture.init (some blk) am src PyVal.none = Except.ok d →
      (d.get_texture_key res).format =
        (if am = "OPAQUE" then "BC1_UNORM_SRGB" else "BC3_UNORM_SRGB")) ∧
    (∀ (blk : GLTF_PBRMetallicRoughness) (am : String) (src : GLTFSrc)
      (d : DXSpec_DiffuseTexture) (res : List PyVal),
      blk.base_color_texture = Option.none →
      DXSpec_DiffuseTexture.init (some blk) am src PyVal.none = Except.ok d →
      (d.get_texture_key res).format = "BC1_UNORM_SRGB") := by
  refine ⟨fun t res => rfl, fun t res => rfl, ?_, ?_, ?_⟩
  · intro t res k h
    cases hu : t.uri with
    | none => simp [DXSpec_EmissiveTexture.get_texture_key, hu] at h
    | some u =>
        cases hs : t.swizzle with
        | none => simp [DXSpec_EmissiveTexture.get_texture_key, hu, hs] at h
        | some s =>
            simp [DXSpec_EmissiveTexture.get_texture_key, hu, hs] at h
            subst h
            rfl
  · intro blk am src ti d res hti hd
    cases hu : src.texture_idx2uri ti.index with
    | error e =>
        simp [DXSpec_DiffuseTexture.init, DXSpec_DiffuseTexture.fromSource,
          hti, hu] at hd
    | ok u =>
        simp [DXSpec_DiffuseTexture.init, DXSpec_DiffuseTexture.fromSource,
          hti, hu, applyTexOverride, pyTruthy] at hd
        subst hd
        by_cases ham : am = "OPAQUE" <;>
          simp [ham, DXSpec_DiffuseTexture.get_texture_key]
  · intro blk am src d res hti hd
    simp [DXSpec_DiffuseTexture.init, DXSpec_DiffuseTexture.fromSource,
      hti, applyTexOverride, pyTruthy] at hd
    subst hd
    simp [DXSpec_DiffuseTexture.get_texture_key]

/-- C6 witness: the fixed formats evaluated at concrete slots. -/
theorem texture_key_formats_witness :
    ((⟨PyVal.none, "hh", PyVal.num 1⟩ : DXSpec_NormalTexture).get_texture_key
      []).format = "BC5_UNORM" ∧
    ((⟨⟨PyVal.none, "1", PyVal.num 1⟩, ⟨PyVal.none, "1", PyVal.num 1⟩,
        ⟨PyVal.none, "1", PyVal.num 0⟩⟩ :
      DXSpec_OcclusionRoughnessMetalness).get_texture_key []).format =
        "BC7_UNORM" ∧
    (⟨[(PyVal.none, "111")], "BC6H_UF16", []⟩ : TextureKey).format = "BC6H_UF16" :=
  ⟨texture_key_formats.1 ⟨PyVal.none, "hh", PyVal.num 1⟩ [],
   texture_key_formats.2.1 ⟨⟨PyVal.none, "1", PyVal.num 1⟩,
     ⟨PyVal.none, "1", PyVal.num 1⟩, ⟨PyVal.none, "1", PyVal.num 0⟩⟩ [],
   texture_key_formats.2.2.1 ⟨some PyVal.none, some "111", some (PyVal.num 1)⟩ []
     ⟨[(PyVal.none, "111")], "BC6H_UF16", []⟩ rfl⟩

/-! ## C2 — scalar fields from source -/

/-- C2 (code bug): the source reads the alpha cutoff from the
misspelled key `'alphaCuttoff'`, so a MASK material that declares
`alphaCutoff: 0.25` (the glTF 2.0 spelling this converter consumes)
gets the default `0.5` instead of the declared `0.25`, contradicting
the claim that the assembled alpha cutoff equals the declared value. -/
theorem alpha_cutoff_key_bug :
    alookup jsonMask "alphaCutoff" = some (PyVal.num ((1 : ℚ) / 4)) ∧
    (GLTF_Material.ofPy (PyVal.dict jsonMask)).map GLTF_Material.alpha_cutoff =
      Except.ok (some ((1 : ℚ) / 2)) ∧
    ((GLTF_Material.ofPy (PyVal.dict jsonMask)).bind
        (fun g => DXSpec_Material.init g src1 Option.none)).map
      DXSpec_Material.alpha_cutoff = Except.ok (PyVal.num ((1 : ℚ) / 2)) ∧
    ((1 : ℚ) / 2) ≠ (1 : ℚ) / 4 :=
  ⟨rfl, rfl, rfl, by norm_num⟩

/-! ## C4 — emissive slot construction -/

/-- The material assembled from `gmPlain` with no override: no emissive
slot at all. -/
def mPlainNoEm : DXSpec_Material :=
  ⟨"P", "model",
    ⟨PyVal.none, "1111",
      PyVal.tuple [PyVal.num 1, PyVal.num 1, PyVal.num 1, PyVal.num 1]⟩,
    ⟨PyVal.none, "hh", PyVal.num 1⟩,
    ⟨⟨PyVal.none, "1", PyVal.num 1⟩, ⟨PyVal.none, "1", PyVal.num 1⟩,
      ⟨PyVal.none, "1", PyVal.num 0⟩⟩,
    Option.none, "OPAQUE", PyVal.none, false,
    [PyVal.num (-1), PyVal.num (-1)]⟩

/-- The material assembled from `gmPlain` with an *empty* emissive
override record: the emissive slot exists but none of its attributes
were ever assigned. -/
def mPlainEmUnset : DXSpec_Material :=
  { mPlainNoEm with emissive := some ⟨Option.none, Option.none, Option.none⟩ }

/-- C4 (code bug): for a material with neither emissive texture nor
emissive factor, an override that names the emissive slot does *not*
construct a `111`-swizzle slot as claimed — an override with a
`factor` modifier crashes with AttributeError (the constructor never
assigned `self.factor`), and an empty emissive override yields a slot
object whose `uri`/`swizzle`/`factor` attributes are all unassigned.
The second half of the claim (no texture, factor or override → no
emissive slot at all) does hold. -/
theorem emissive_override_only_bug :
    DXSpec_Material.init gmPlain src1
      (some [("emissive", PyVal.dict
        [("factor", PyVal.tuple [PyVal.num 2, PyVal.num 2, PyVal.num 2])])]) =
      Except.error (PyError.attributeError "factor") ∧
    DXSpec_Material.init gmPlain src1 (some [("emissive", PyVal.dict [])]) =
      Except.ok mPlainEmUnset ∧
    mPlainEmUnset.emissive = some ⟨Option.none, Option.none, Option.none⟩ ∧
    DXSpec_Material.init gmPlain src1 Option.none = Except.ok mPlainNoEm ∧
    mPlainNoEm.emissive = Option.none :=
  ⟨rfl, rfl, rfl, rfl, rfl⟩

/-! ## C8 — recursive override merge -/

theorem alookup_setK_self {α β : Type} [DecidableEq α] (A : List (α × β)) (k : α)
    (v : β) : alookup (setK A k v) k = some v := by
  induction A with
  | nil => simp [setK, alookup]
  | cons x rest ih =>
      obtain ⟨k0, v0⟩ := x
      by_cases h : k = k0
      · subst h
        simp [setK, alookup]
      · simp [setK, alookup, h, ih]

theorem alookup_setK_ne {α β : Type} [DecidableEq α] (A : List (α × β)) (k k' : α)
    (v : β) (h : k' ≠ k) : alookup (setK A k v) k' = alookup A k' := by
  induction A with
  | nil => simp [setK, alookup, h]
  | cons x rest ih =>
      obtain ⟨k0, v0⟩ := x
      by_cases h0 : k = k0
      · subst h0
        simp [setK, alookup, h]
      · simp [setK, alookup, h0, ih]

theorem alookup_eq_none_of_not_mem {α β : Type} [DecidableEq α]
    (A : List (α × β)) (k : α) (h : k ∉ akeys A) : alookup A k = Option.none := by
  induction A with
  | nil => rfl
  | cons x rest ih =>
      obtain ⟨k0, v0⟩ := x
      simp [akeys] at h
      simp [alookup, h.1, ih (by simp [akeys, h.2])]

theorem recursive_overwrite_not_mem (B A : PyDict) (k : String)
    (h : alookup B k = Option.none) :
    alookup (recursive_overwrite A B) k = alookup A k := by
  induction B generalizing A with
  | nil => simp [recursive_overwrite]
  | cons x rest ih =>
      obtain ⟨k0, v0⟩ := x
      by_cases hk : k = k0
      · subst hk
        simp [alookup] at h
      · simp only [alookup, if_neg hk] at h
        simp only [recursive_overwrite]
        split

        all_goals rw [ih _ h, alookup_setK_ne _ _ _ _ hk]

theorem recursive_overwrite_both_dicts (overlay base : PyDict) (k : String)
    (ad bd : PyDict) (hnd : (akeys overlay).Nodup)
    (ho : alookup overlay k = some (PyVal.dict bd))
    (hb : alookup base k = some (PyVal.dict ad)) :
    alookup (recursive_overwrite base overlay) k =
      some (PyVal.dict (recursive_overwrite ad bd)) := by
  induction overlay generalizing base with
  | nil => simp [alookup] at ho
  | cons x rest ih =>
      obtain ⟨k0, v0⟩ := x
      simp only [akeys, List.map_cons, List.nodup_cons] at hnd
      by_cases hk : k = k0
      · subst hk
        simp only [alookup, if_pos rfl] at ho
        cases ho
        have hrest : alookup rest k = Option.none :=
          alookup_eq_none_of_not_mem _ _ hnd.1
        simp only [recursive_overwrite]
        rw [recursive_overwrite_not_mem _ _ _ hrest, hb]
        simp [isDictO, PyVal.isDict, asDictO, asDict, alookup_setK_self]
      · simp only [alookup, if_neg hk] at ho
        simp only [recursive_overwrite]
        split
        all_goals exact ih _ hnd.2 ho (by rw [alookup_setK_ne _ _ _ _ hk]; exact hb)

theorem recursive_overwrite_replace (overlay base : PyDict) (k : String)
    (v : PyVal) (hnd : (akeys overlay).Nodup) (ho : alookup overlay k = some v)
    (hnb : (∀ ad, alookup base k ≠ some (PyVal.dict ad)) ∨
      (∀ bd, v ≠ PyVal.dict bd)) :
    alookup (recursive_overwrite base overlay) k = some v := by
  induction overlay generalizing base with
  | nil => simp [alookup] at ho
  | cons x rest ih =>
      obtain ⟨k0, v0⟩ := x
      simp only [akeys, List.map_cons, List.nodup_cons] at hnd
      by_cases hk : k = k0
      · subst hk
        simp only [alookup, if_pos rfl] at ho
        cases ho
        have hrest : alookup rest k = Option.none :=
          alookup_eq_none_of_not_mem _ _ hnd.1
        have hcond : (isDictO (alookup base k) && PyVal.isDict v) = false := by
          rcases hnb with hnb | hnb
          · rcases halo : alookup base k with _ | w
            · rfl
            · cases w
              case dict ad' => exact absurd halo (hnb ad')
              all_goals rfl
          · cases v
            case dict bd' => exact absurd rfl (hnb bd')
            all_goals simp [PyVal.isDict]
        simp only [recursive_overwrite]
        rw [recursive_overwrite_not_mem _ _ _ hrest, hcond]
        simp [alookup_setK_self]
      · simp only [alookup, if_neg hk] at ho
        simp only [recursive_overwrite]
        split
        · refine ih _ hnd.2 ho ?_
          rcases hnb with hnb | hnb
          · left
            intro ad' hlk
            rw [alookup_setK_ne _ _ _ _ hk] at hlk
            exact hnb _ hlk
          · right
            exact hnb
        · refine ih _ hnd.2 ho ?_
          rcases hnb with hnb | hnb
          · left
            intro ad' hlk
            rw [alookup_setK_ne _ _ _ _ hk] at hlk
            exact hnb _ hlk
          · right
            exact hnb

/-- C8: merging the global override entry into a per-material override
record with `recursive_overwrite(perMaterial, global)` (the global
entry is the overlay, as `parse_materials` calls it): keys absent from
the overlay are untouched, keys where both sides hold nested mappings
are merged recursively, and every other overlay key — in particular a
conflicting non-mapping value — replaces (wins over) the base value,
with overlay-only keys added. -/
theorem recursive_overwrite_merge (base overlay : PyDict) (k : String)
    (hnd : (akeys overlay).Nodup) :
    (alookup overlay k = Option.none →
      alookup (recursive_overwrite base overlay) k = alookup base k) ∧
    (∀ ad bd, alookup overlay k = some (PyVal.dict bd) →
      alookup base k = some (PyVal.dict ad) →
      alookup (recursive_overwrite base overlay) k =
        some (PyVal.dict (recursive_overwrite ad bd))) ∧
    (∀ v, alookup overlay k = some v →
      ((∀ ad, alookup base k ≠ some (PyVal.dict ad)) ∨ (∀ bd, v ≠ PyVal.dict bd)) →
      alookup (recursive_overwrite base overlay) k = some v) :=
  ⟨fun h => recursive_overwrite_not_mem overlay base k h,
   fun ad bd ho hb => recursive_overwrite_both_dicts overlay base k ad bd hnd ho hb,
   fun v ho hnb => recursive_overwrite_replace overlay base k v hnd ho hnb⟩

/-- Example per-material override record. -/
def baseEx : PyDict :=
  [("a", PyVal.num 1), ("m", PyVal.dict [("x", PyVal.num 1), ("y", PyVal.num 2)])]

/-- Example global override record. -/
def overlayEx : PyDict :=
  [("m", PyVal.dict [("y", PyVal.num 9)]), ("b", PyVal.num 7)]

/-- C8 witness: the merge behaviour at a concrete base/overlay pair. -/
theorem recursive_overwrite_merge_witness :
    alookup (recursive_overwrite baseEx overlayEx) "a" = alookup baseEx "a" ∧
    alookup (recursive_overwrite baseEx overlayEx) "m" =
      some (PyVal.dict (recursive_overwrite
        [("x", PyVal.num 1), ("y", PyVal.num 2)] [("y", PyVal.num 9)])) ∧
    alookup (recursive_overwrite baseEx overlayEx) "b" = some (PyVal.num 7) :=
  ⟨(recursive_overwrite_merge baseEx overlayEx "a" (by decide)).1 (by decide),
   (recursive_overwrite_merge baseEx overlayEx "m" (by decide)).2.1
     [("x", PyVal.num 1), ("y", PyVal.num 2)] [("y", PyVal.num 9)]
     (by decide) (by decide),
   (recursive_overwrite_merge baseEx overlayEx "b" (by decide)).2.2
     (PyVal.num 7) (by decide) (Or.inl (fun ad h => Option.noConfusion h))⟩

/-! ## C9 — override exhaustion -/

/-- The recognized top-level keys of a material override record. -/
def recognizedTop : List String :=
  ["blend_mode", "alpha_cutoff", "double_sided", "diffuse", "normal",
   "occlusion", "roughness", "metalness", "emissive", "resolution"]

theorem popD_snd_mem {β : Type} (d : List (String × β)) (n k : String)
    (hne : k ≠ n) (hk : k ∈ akeys d) : k ∈ akeys (popD d n).2 := by
  induction d with
  | nil => simp [akeys] at hk
  | cons x rest ih =>
      obtain ⟨k0, v0⟩ := x
      simp only [akeys, List.map_cons, List.mem_cons] at hk
      by_cases h0 : n = k0
      · subst h0
        simp only [popD, if_pos rfl]
        rcases hk with hk | hk
        · exact absurd hk hne
        · exact hk
      · simp only [popD, if_neg h0, akeys, List.map_cons, List.mem_cons]
        rcases hk with hk | hk
        · exact Or.inl hk
        · exact Or.inr (ih hk)

theorem popD_not_found {β : Type} (d : List (String × β)) (n : String)
    (h : ∀ e ∈ d, e.1 ≠ n) : popD d n = (Option.none, d) := by
  induction d with
  | nil => rfl
  | cons x rest ih =>
      obtain ⟨k0, v0⟩ := x
      have h0 : n ≠ k0 := fun he => h (k0, v0) (by simp) (by simp [he])
      simp [popD, h0, ih (fun e he => h e (by simp [he]))]

theorem popD_single {β : Type} (k n : String) (v : β) (h : n ≠ k) :
    popD [(k, v)] n = (Option.none, [(k, v)]) := by
  simp [popD, h]

theorem popD_nil {β : Type} (n : String) :
    popD ([] : List (String × β)) n = (Option.none, []) := rfl

theorem applyTexOverride_ok_keys {us mk : String} {u0 : PyVal} {s0 : String}
    {v0 : PyVal} {d : PyDict} {r : PyVal × String × PyVal}
    (h : applyTexOverride us mk u0 s0 v0 (PyVal.dict d) = Except.ok r)
    {k : String} (hk : k ∈ akeys d) : k = "uri" ∨ k = mk := by
  by_contra hcon
  push_neg at hcon
  obtain ⟨hku, hkm⟩ := hcon
  have hd : ¬ d = [] := by
    intro he
    subst he
    simp [akeys] at hk
  have h1 : k ∈ akeys (popD d "uri").2 := popD_snd_mem d "uri" k hku hk
  have h2 : k ∈ akeys (popD (popD d "uri").2 mk).2 :=
    popD_snd_mem _ mk k hkm h1
  have hne : (popD (popD d "uri").2 mk).2 ≠ [] := by
    intro he
    rw [he] at h2
    simp [akeys] at h2
  unfold applyTexOverride at h
  simp only [pyTruthy, ne_eq, hd, not_false_eq_true, decide_True, if_true] at h
  rcases hm : (popD (popD d "uri").2 mk).1 with _ | mv <;> rw [hm] at h
  · simp only [if_neg hne] at h
    exact Except.noConfusion h
  · obtain ⟨val1, _, hval⟩ := exceptBind_ok h
    simp only [if_neg hne] at hval
    exact Except.noConfusion hval

theorem applyTexOverride_unknown (us mk : String) (u0 : PyVal) (s0 : String)
    (v0 : PyVal) (k : String) (v : PyVal) (h1 : k ≠ "uri") (h2 : k ≠ mk) :
    applyTexOverride us mk u0 s0 v0 (PyVal.dict [(k, v)]) =
      Except.error (PyError.unknownOverrides [k]) := by
  unfold applyTexOverride
  simp [pyTruthy, popD_single _ _ _ (Ne.symm h1), popD_single _ _ _ (Ne.symm h2),
    akeys]

theorem normal_init_ok_keys {obj : Option GLTF_NormalTexture} {src : GLTFSrc}
    {d : PyDict} {r : DXSpec_NormalTexture} {k : String}
    (h : DXSpec_NormalTexture.init obj src (PyVal.dict d) = Except.ok r)
    (hk : k ∈ akeys d) : k = "uri" ∨ k = "scale" := by
  unfold DXSpec_NormalTexture.init at h
  obtain ⟨base, hbase, h2⟩ := exceptBind_ok h
  obtain ⟨u, s, v⟩ := base
  obtain ⟨tr, happ, _⟩ := exceptBind_ok h2
  exact applyTexOverride_ok_keys happ hk

theorem occlusion_init_ok_keys {obj : Option GLTF_OcclusionTexture} {src : GLTFSrc}
    {d : PyDict} {r : DXSpec_OcclusionTexture} {k : String}
    (h : DXSpec_OcclusionTexture.init obj src (PyVal.dict d) = Except.ok r)
    (hk : k ∈ akeys d) : k = "uri" ∨ k = "strength" := by
  unfold DXSpec_OcclusionTexture.init at h
  obtain ⟨base, hbase, h2⟩ := exceptBind_ok h
  obtain ⟨u, s, v⟩ := base
  obtain ⟨tr, happ, _⟩ := exceptBind_ok h2
  exact applyTexOverride_ok_keys happ hk

theorem roughness_init_ok_keys {obj : Option GLTF_PBRMetallicRoughness}
    {src : GLTFSrc} {d : PyDict} {r : DXSpec_RoughnessTexture} {k : String}
    (h : DXSpec_RoughnessTexture.init obj src (PyVal.dict d) = Except.ok r)
    (hk : k ∈ akeys d) : k = "uri" ∨ k = "strength" := by
  unfold DXSpec_RoughnessTexture.init at h
  obtain ⟨base, hbase, h2⟩ := exceptBind_ok h
  obtain ⟨u, s, v⟩ := base
  obtain ⟨tr, happ, _⟩ := exceptBind_ok h2
  exact applyTexOverride_ok_keys happ hk

theorem metalness_init_ok_keys {obj : Option GLTF_PBRMetallicRoughness}
    {src : GLTFSrc} {d : PyDict} {r : DXSpec_MetalnessTexture} {k : String}
    (h : DXSpec_MetalnessTexture.init obj src (PyVal.dict d) = Except.ok r)
    (hk : k ∈ akeys d) : k = "uri" ∨ k = "strength" := by
  unfold DXSpec_MetalnessTexture.init at h
  obtain ⟨base, hbase, h2⟩ := exceptBind_ok h
  obtain ⟨u, s, v⟩ := base
  obtain ⟨tr, happ, _⟩ := exceptBind_ok h2
  exact applyTexOverride_ok_keys happ hk

theorem diffuse_init_ok_keys {obj : Option GLTF_PBRMetallicRoughness}
    {am : String} {src : GLTFSrc} {d : PyDict} {r : DXSpec_DiffuseTexture}
    {k : String}
    (h : DXSpec_DiffuseTexture.init obj am src (PyVal.dict d) = Except.ok r)
    (hk : k ∈ akeys d) : k = "uri" ∨ k = "strength" := by
  unfold DXSpec_DiffuseTexture.init at h
  obtain ⟨base, hbase, h2⟩ := exceptBind_ok h
  obtain ⟨u, s, v⟩ := base
  obtain ⟨tr, happ, _⟩ := exceptBind_ok h2
  exact applyTexOverride_ok_keys happ hk

theorem emissive_init_ok_keys {obj : GLTF_Material} {src : GLTFSrc} {d : PyDict}
    {e : DXSpec_EmissiveTexture} {k : String}
    (h : DXSpec_EmissiveTexture.init obj src (PyVal.dict d) = Except.ok e)
    (hk : k ∈ akeys d) : k = "uri" ∨ k = "factor" := by
  by_contra hcon
  push_neg at hcon
  obtain ⟨hku, hkf⟩ := hcon
  have hd : ¬ d = [] := by
    intro he
    subst he
    simp [akeys] at hk
  have h1 : k ∈ akeys (popD d "uri").2 := popD_snd_mem d "uri" k hku hk
  have h2 : k ∈ akeys (popD (popD d "uri").2 "factor").2 :=
    popD_snd_mem _ "factor" k hkf h1
  have hne : (popD (popD d "uri").2 "factor").2 ≠ [] := by
    intro he
    rw [he] at h2
    simp [akeys] at h2
  unfold DXSpec_EmissiveTexture.init at h
  obtain ⟨st0, hst0, h3⟩ := exceptBind_ok h
  unfold DXSpec_EmissiveTexture.applyOverride at h3
  simp only [pyTruthy, ne_eq, hd, not_false_eq_true, decide_True, if_true] at h3
  rcases hf : (popD (popD d "uri").2 "factor").1 with _ | mv <;> rw [hf] at h3
  · simp only [if_neg hne] at h3
    exact Except.noConfusion h3
  · rcases hstf : (match (popD d "uri").1 with
      | some v => { st0 with uri := some v, swizzle := some "rgb" }
      | Option.none => st0 : DXSpec_EmissiveTexture).factor with _ | cur <;>
      rw [hstf] at h3
    · exact Except.noConfusion h3
    · obtain ⟨nf, _, hnf⟩ := exceptBind_ok h3
      simp only [if_neg hne] at hnf
      exact Except.noConfusion hnf

theorem orm_init_keys {obj : GLTF_Material} {src : GLTFSrc} {d d' : PyDict}
    {orm : DXSpec_OcclusionRoughnessMetalness} {k : String}
    (h : DXSpec_OcclusionRoughnessMetalness.init obj src d = Except.ok (orm, d'))
    (hk : k ∈ akeys d) (h1 : k ≠ "occlusion") (h2 : k ≠ "roughness")
    (h3 : k ≠ "metalness") : k ∈ akeys d' := by
  unfold DXSpec_OcclusionRoughnessMetalness.init at h
  obtain ⟨occ, _, h4⟩ := exceptBind_ok h
  obtain ⟨rough, _, h5⟩ := exceptBind_ok h4
  obtain ⟨metal, _, h6⟩ := exceptBind_ok h5
  have hd' : d' = (popD (popD (popD d "occlusion").2 "roughness").2 "metalness").2 := by
    simp only [pure, Except.pure, Except.ok.injEq, Prod.mk.injEq] at h6
    exact h6.2.symm
  rw [hd']
  exact popD_snd_mem _ _ _ h3 (popD_snd_mem _ _ _ h2 (popD_snd_mem _ _ _ h1 hk))

theorem material_init_ok_keys {obj : GLTF_Material} {src : GLTFSrc} {ov : PyDict}
    {m : DXSpec_Material} {k : String}
    (h : DXSpec_Material.init obj src (some ov) = Except.ok m)
    (hk : k ∈ akeys ov) : k ∈ recognizedTop := by
  by_contra hcon
  have hb : k ≠ "blend_mode" := fun he => hcon (by simp [recognizedTop, he])
  have ha : k ≠ "alpha_cutoff" := fun he => hcon (by simp [recognizedTop, he])
  have hds : k ≠ "double_sided" := fun he => hcon (by simp [recognizedTop, he])
  have hdf : k ≠ "diffuse" := fun he => hcon (by simp [recognizedTop, he])
  have hn : k ≠ "normal" := fun he => hcon (by simp [recognizedTop, he])
  have hoc : k ≠ "occlusion" := fun he => hcon (by simp [recognizedTop, he])
  have hro : k ≠ "roughness" := fun he => hcon (by simp [recognizedTop, he])
  have hme : k ≠ "metalness" := fun he => hcon (by simp [recognizedTop, he])
  have hem : k ≠ "emissive" := fun he => hcon (by simp [recognizedTop, he])
  have hre : k ≠ "resolution" := fun he => hcon (by simp [recognizedTop, he])
  unfold DXSpec_Material.init at h
  obtain ⟨bm, _, h⟩ := exceptBind_ok h
  obtain ⟨ac, _, h⟩ := exceptBind_ok h
  obtain ⟨ds, _, h⟩ := exceptBind_ok h
  obtain ⟨df, _, h⟩ := exceptBind_ok h
  obtain ⟨nm, _, h⟩ := exceptBind_ok h
  obtain ⟨ormp, hormp, h⟩ := exceptBind_ok h
  obtain ⟨emp, hemp, h⟩ := exceptBind_ok h
  obtain ⟨res, _, h⟩ := exceptBind_ok h
  have m1 : k ∈ akeys (popD ((some ov).getD []) "blend_mode").2 :=
    popD_snd_mem _ _ _ hb hk
  have m2 : k ∈ akeys (popD (popD ((some ov).getD []) "blend_mode").2
      "alpha_cutoff").2 := popD_snd_mem _ _ _ ha m1
  have m3 := popD_snd_mem _ "double_sided" _ hds m2
  have m4 := popD_snd_mem _ "diffuse" _ hdf m3
  have m5 := popD_snd_mem _ "normal" _ hn m4
  have hormp' : DXSpec_OcclusionRoughnessMetalness.init obj src
      (popD (popD (popD (popD (popD ((some ov).getD []) "blend_mode").2
        "alpha_cutoff").2 "double_sided").2 "diffuse").2 "normal").2 =
      Except.ok (ormp.1, ormp.2) := by
    rw [Prod.mk.eta]
    exact hormp
  have m6 : k ∈ akeys ormp.2 := orm_init_keys hormp' m5 hoc hro hme
  have m7 : k ∈ akeys emp.2 := by
    unfold DXSpec_Material.emissiveStep at hemp
    by_cases hcnd : obj.emissive_texture.isSome = true ∨
        emissiveFactorTruthy obj = true ∨ (alookup ormp.2 "emissive").isSome = true
    · rw [if_pos hcnd] at hemp
      obtain ⟨e, _, hpure⟩ := exceptBind_ok hemp
      have : (some e, (popD ormp.2 "emissive").2) = emp := by
        simpa [pure, Except.pure] using hpure
      rw [← this]
      exact popD_snd_mem _ _ _ hem m6
    · rw [if_neg hcnd] at hemp
      have : ((Option.none : Option DXSpec_EmissiveTexture), ormp.2) = emp := by
        simpa [pure, Except.pure] using hemp
      rw [← this]
      exact m6
  have m8 : k ∈ akeys (popD emp.2 "resolution").2 := popD_snd_mem _ _ _ hre m7
  have hne : (popD emp.2 "resolution").2 ≠ [] := by
    intro he
    rw [he] at m8
    simp [akeys] at m8
  rw [if_neg hne] at h
  exact Except.noConfusion h

theorem normal_init_unknown {obj : Option GLTF_NormalTexture} {src : GLTFSrc}
    {r0 : DXSpec_NormalTexture} (k : String) (v : PyVal)
    (h1 : k ≠ "uri") (h2 : k ≠ "scale")
    (h0 : DXSpec_NormalTexture.init obj src PyVal.none = Except.ok r0) :
    DXSpec_NormalTexture.init obj src (PyVal.dict [(k, v)]) =
      Except.error (PyError.unknownOverrides [k]) := by
  unfold DXSpec_NormalTexture.init at h0 ⊢
  obtain ⟨base, hbase, _⟩ := exceptBind_ok h0
  rw [hbase]
  simp [applyTexOverride_unknown "rg" "scale" base.1 base.2.1 base.2.2 k v h1 h2]

theorem orm_init_single {obj : GLTF_Material} {src : GLTFSrc}
    {p : DXSpec_OcclusionRoughnessMetalness × PyDict} (k : String) (v : PyVal)
    (h1 : k ≠ "occlusion") (h2 : k ≠ "roughness") (h3 : k ≠ "metalness")
    (h0 : DXSpec_OcclusionRoughnessMetalness.init obj src [] = Except.ok p) :
    DXSpec_OcclusionRoughnessMetalness.init obj src [(k, v)] =
      Except.ok (p.1, [(k, v)]) := by
  unfold DXSpec_OcclusionRoughnessMetalness.init at h0 ⊢
  simp only [popD_single k _ v (Ne.symm h1), popD_single k _ v (Ne.symm h2),
    popD_single k _ v (Ne.symm h3), popD_nil] at h0 ⊢
  obtain ⟨occ, hocc, h0⟩ := exceptBind_ok h0
  obtain ⟨rough, hrough, h0⟩ := exceptBind_ok h0
  obtain ⟨metal, hmetal, h0⟩ := exceptBind_ok h0
  rw [hocc]
  simp only [exbind_ok]
  rw [hrough]
  simp only [exbind_ok]
  rw [hmetal]
  simp only [exbind_ok]
  have hp : (⟨⟨occ, rough, metal⟩, []⟩ :
      DXSpec_OcclusionRoughnessMetalness × PyDict) = p := by
    simpa [pure, Except.pure] using h0
  rw [← hp]
  rfl

theorem emissive_step_single {obj : GLTF_Material} {src : GLTFSrc}
    {p : Option DXSpec_EmissiveTexture × PyDict} (k : String) (v : PyVal)
    (hem : k ≠ "emissive")
    (h0 : DXSpec_Material.emissiveStep obj src [] = Except.ok p) :
    DXSpec_Material.emissiveStep obj src [(k, v)] = Except.ok (p.1, [(k, v)]) := by
  unfold DXSpec_Material.emissiveStep at h0 ⊢
  have hcl : alookup [(k, v)] "emissive" = (Option.none : Option PyVal) := by
    simp [alookup, Ne.symm hem]
  rw [hcl]
  simp only [popD_single k _ v (Ne.symm hem), popD_nil] at h0 ⊢
  simp only [alookup, Option.isSome_none, Bool.false_eq_true, or_false] at h0 ⊢
  by_cases hc : obj.emissive_texture.isSome = true ∨ emissiveFactorTruthy obj = true
  · rw [if_pos hc] at h0 ⊢
    obtain ⟨e, he, h0⟩ := exceptBind_ok h0
    rw [he]
    simp only [exbind_ok]
    have hp : (⟨some e, []⟩ : Option DXSpec_EmissiveTexture × PyDict) = p := by
      simpa [pure, Except.pure] using h0
    rw [← hp]
    rfl
  · rw [if_neg hc] at h0 ⊢
    have hp : (⟨Option.none, []⟩ : Option DXSpec_EmissiveTexture × PyDict) = p := by
      simpa [pure, Except.pure] using h0
    rw [← hp]
    rfl

theorem orm_init_nil_snd {obj : GLTF_Material} {src : GLTFSrc}
    {p : DXSpec_OcclusionRoughnessMetalness × PyDict}
    (h : DXSpec_OcclusionRoughnessMetalness.init obj src [] = Except.ok p) :
    p.2 = [] := by
  unfold DXSpec_OcclusionRoughnessMetalness.init at h
  simp only [popD_nil] at h
  obtain ⟨occ, _, h⟩ := exceptBind_ok h
  obtain ⟨rough, _, h⟩ := exceptBind_ok h
  obtain ⟨metal, _, h⟩ := exceptBind_ok h
  have hp : (⟨⟨occ, rough, metal⟩, []⟩ :
      DXSpec_OcclusionRoughnessMetalness × PyDict) = p := by
    simpa [pure, Except.pure] using h
  rw [← hp]

theorem emissive_step_nil_snd {obj : GLTF_Material} {src : GLTFSrc}
    {p : Option DXSpec_EmissiveTexture × PyDict}
    (h : DXSpec_Material.emissiveStep obj src [] = Except.ok p) : p.2 = [] := by
  unfold DXSpec_Material.emissiveStep at h
  simp only [popD_nil, alookup, Option.isSome_none, Bool.false_eq_true,
    or_false] at h
  split at h
  · obtain ⟨e, _, h⟩ := exceptBind_ok h
    have hp : (⟨some e, []⟩ : Option DXSpec_EmissiveTexture × PyDict) = p := by
      simpa [pure, Except.pure] using h
    rw [← hp]
  · have hp : (⟨Option.none, []⟩ : Option DXSpec_EmissiveTexture × PyDict) = p := by
      simpa [pure, Except.pure] using h
    rw [← hp]

theorem material_init_unknown {obj : GLTF_Material} {src : GLTFSrc}
    {m0 : DXSpec_Material} (k : String) (v : PyVal) (hcon : k ∉ recognizedTop)
    (h0 : DXSpec_Material.init obj src Option.none = Except.ok m0) :
    DXSpec_Material.init obj src (some [(k, v)]) =
      Except.error (PyError.unknownOverrides [k]) := by
  have hb : k ≠ "blend_mode" := fun he => hcon (by simp [recognizedTop, he])
  have ha : k ≠ "alpha_cutoff" := fun he => hcon (by simp [recognizedTop, he])
  have hds : k ≠ "double_sided" := fun he => hcon (by simp [recognizedTop, he])
  have hdf : k ≠ "diffuse" := fun he => hcon (by simp [recognizedTop, he])
  have hn : k ≠ "normal" := fun he => hcon (by simp [recognizedTop, he])
  have hoc : k ≠ "occlusion" := fun he => hcon (by simp [recognizedTop, he])
  have hro : k ≠ "roughness" := fun he => hcon (by simp [recognizedTop, he])
  have hme : k ≠ "metalness" := fun he => hcon (by simp [recognizedTop, he])
  have hem : k ≠ "emissive" := fun he => hcon (by simp [recognizedTop, he])
  have hre : k ≠ "resolution" := fun he => hcon (by simp [recognizedTop, he])
  unfold DXSpec_Material.init at h0 ⊢
  simp only [Option.getD_some, Option.getD_none,
    popD_single k _ v (Ne.symm hb), popD_single k _ v (Ne.symm ha),
    popD_single k _ v (Ne.symm hds), popD_single k _ v (Ne.symm hdf),
    popD_single k _ v (Ne.symm hn), popD_single k _ v (Ne.symm hre),
    popD_nil] at h0 ⊢
  obtain ⟨bm, hbm, h0⟩ := exceptBind_ok h0
  rw [hbm]
  simp only [exbind_ok]
  obtain ⟨ac, hac, h0⟩ := exceptBind_ok h0
  rw [hac]
  simp only [exbind_ok]
  obtain ⟨ds, hds2, h0⟩ := exceptBind_ok h0
  rw [hds2]
  simp only [exbind_ok]
  obtain ⟨df, hdf2, h0⟩ := exceptBind_ok h0
  rw [hdf2]
  simp only [exbind_ok]
  obtain ⟨nm, hnm2, h0⟩ := exceptBind_ok h0
  rw [hnm2]
  simp only [exbind_ok]
  obtain ⟨ormp, hormp, h0⟩ := exceptBind_ok h0
  have hormnil : ormp.2 = [] := orm_init_nil_snd hormp
  rw [hormnil] at h0
  rw [orm_init_single k v hoc hro hme hormp]
  simp only [exbind_ok]
  obtain ⟨emp, hemp, h0⟩ := exceptBind_ok h0
  have hempnil : emp.2 = [] := emissive_step_nil_snd hemp
  rw [hempnil] at h0
  rw [emissive_step_single k v hem hemp]
  simp only [exbind_ok]
  obtain ⟨res, hres, h0⟩ := exceptBind_ok h0
  simp only [popD_single k _ v (Ne.symm hre), popD_nil] at hres ⊢
  rw [hres]
  simp only [exbind_ok]
  simp [akeys]

/-- C9: any slot-level or top-level override record containing a key the
corresponding constructor does not recognize can never construct
successfully (it is never silently ignored); and when the rest of the
record is well-formed (here: the record holds only the unknown key, and
the same construction with no override succeeds), the error is exactly
the unknown-overrides error naming that key. -/
theorem override_exhaustion
    (objN : Option GLTF_NormalTexture) (objO : Option GLTF_OcclusionTexture)
    (objP : Option GLTF_PBRMetallicRoughness) (gm : GLTF_Material)
    (am : String) (src : GLTFSrc) (d : PyDict) (k : String) (v : PyVal)
    (hk : k ∈ akeys d) :
    (k ≠ "uri" → k ≠ "scale" →
      ∀ r, DXSpec_NormalTexture.init objN src (PyVal.dict d) ≠ Except.ok r) ∧
    (k ≠ "uri" → k ≠ "strength" →
      ∀ r, DXSpec_OcclusionTexture.init objO src (PyVal.dict d) ≠ Except.ok r) ∧
    (k ≠ "uri" → k ≠ "strength" →
      ∀ r, DXSpec_RoughnessTexture.init objP src (PyVal.dict d) ≠ Except.ok r) ∧
    (k ≠ "uri" → k ≠ "strength" →
      ∀ r, DXSpec_MetalnessTexture.init objP src (PyVal.dict d) ≠ Except.ok r) ∧
    (k ≠ "uri" → k ≠ "strength" →
      ∀ r, DXSpec_DiffuseTexture.init objP am src (PyVal.dict d) ≠ Except.ok r) ∧
    (k ≠ "uri" → k ≠ "factor" →
      ∀ r, DXSpec_EmissiveTexture.init gm src (PyVal.dict d) ≠ Except.ok r) ∧
    (k ∉ recognizedTop →
      ∀ m, DXSpec_Material.init gm src (some d) ≠ Except.ok m) ∧
    (k ≠ "uri" → k ≠ "scale" →
      ∀ r0, DXSpec_NormalTexture.init objN src PyVal.none = Except.ok r0 →
      DXSpec_NormalTexture.init objN src (PyVal.dict [(k, v)]) =
        Except.error (PyError.unknownOverrides [k])) ∧
    (k ∉ recognizedTop →
      ∀ m0, DXSpec_Material.init gm src Option.none = Except.ok m0 →
      DXSpec_Material.init gm src (some [(k, v)]) =
        Except.error (PyError.unknownOverrides [k])) := by
  refine ⟨?_, ?_, ?_, ?_, ?_, ?_, ?_, ?_, ?_⟩
  · intro h1 h2 r h
    rcases normal_init_ok_keys h hk with he | he <;> [exact h1 he; exact h2 he]
  · intro h1 h2 r h
    rcases occlusion_init_ok_keys h hk with he | he <;> [exact h1 he; exact h2 he]
  · intro h1 h2 r h
    rcases roughness_init_ok_keys h hk with he | he <;> [exact h1 he; exact h2 he]
  · intro h1 h2 r h
    rcases metalness_init_ok_keys h hk with he | he <;> [exact h1 he; exact h2 he]
  · intro h1 h2 r h
    rcases diffuse_init_ok_keys h hk with he | he <;> [exact h1 he; exact h2 he]
  · intro h1 h2 r h
    rcases emissive_init_ok_keys h hk with he | he <;> [exact h1 he; exact h2 he]
  · intro h1 m h
    exact h1 (material_init_ok_keys h hk)
  · intro h1 h2 r0 h0
    exact normal_init_unknown k v h1 h2 h0
  · intro h1 m0 h0
    exact material_init_unknown k v h1 h0

/-- C9 witness: the unknown key `bogus` at concrete inputs. -/
theorem override_exhaustion_witness :
    DXSpec_NormalTexture.init Option.none src1
      (PyVal.dict [("bogus", PyVal.num 1)]) =
      Except.error (PyError.unknownOverrides ["bogus"]) ∧
    DXSpec_Material.init gmPlain src1 (some [("bogus", PyVal.num 1)]) =
      Except.error (PyError.unknownOverrides ["bogus"]) := by
  have h := override_exhaustion Option.none Option.none Option.none gmPlain
    "OPAQUE" src1 [("bogus", PyVal.num 1)] "bogus" (PyVal.num 1) (by decide)
  exact ⟨h.2.2.2.2.2.2.2.1 (by decide) (by decide)
      ⟨PyVal.none, "hh", PyVal.num 1⟩ (by rfl),
    h.2.2.2.2.2.2.2.2 (by decide) mPlainNoEm (by rfl)⟩

/-! ## C7 — the key↔name maps are a bijection -/

theorem alookup_append {α β : Type} [DecidableEq α] (l1 l2 : List (α × β)) (k : α) :
    alookup (l1 ++ l2) k =
      (match alookup l1 k with
        | some v => some v
        | Option.none => alookup l2 k) := by
  induction l1 with
  | nil => simp [alookup]
  | cons x rest ih =>
      obtain ⟨k0, v0⟩ := x
      by_cases h : k = k0 <;> simp [alookup, h, ih]

/-- Destructs one successful step of the registration loop. -/
theorem buildNamesGo_step {default : String} {k : TextureKey} {ks : List TextureKey}
    {outs : List (String × TextureKey)} {inv : List (TextureKey × String)}
    {r : List (String × TextureKey) × List (TextureKey × String)}
    (h : buildNamesGo default (k :: ks) outs inv = Except.ok r) :
    ∃ n, name_fold k default = Except.ok n ∧
      alookup outs n = Option.none ∧ alookup inv k = Option.none ∧
      buildNamesGo default ks (outs ++ [(n, k)]) (inv ++ [(k, n)]) = Except.ok r := by
  unfold buildNamesGo at h
  obtain ⟨n, hn, h⟩ := exceptBind_ok h
  refine ⟨n, hn, ?_⟩
  rcases hout : alookup outs n with _ | k0
  · rw [hout] at h
    simp only [Option.isSome_none, Bool.false_eq_true, if_false] at h
    rcases hinv : alookup inv k with _ | n0
    · rw [hinv] at h
      simp only [Option.isSome_none, Bool.false_eq_true, if_false] at h
      exact ⟨rfl, rfl, h⟩
    · rw [hinv] at h
      simp only [Option.isSome_some, if_true] at h
      exact Except.noConfusion h
  · rw [hout] at h
    simp only [Option.isSome_some, if_true] at h
    exact Except.noConfusion h

theorem buildNamesGo_stab_outs {default : String} {ks : List TextureKey}
    {outs : List (String × TextureKey)} {inv : List (TextureKey × String)}
    {r : List (String × TextureKey) × List (TextureKey × String)}
    (h : buildNamesGo default ks outs inv = Except.ok r) {n : String}
    {k : TextureKey} (hl : alookup outs n = some k) : alookup r.1 n = some k := by
  induction ks generalizing outs inv with
  | nil =>
      have : (outs, inv) = r := by
        simpa [buildNamesGo, pure, Except.pure] using h
      rw [← this]
      exact hl
  | cons k0 ks ih =>
      obtain ⟨n0, _, _, _, hrest⟩ := buildNamesGo_step h
      exact ih hrest (by rw [alookup_append, hl])

theorem buildNamesGo_stab_inv {default : String} {ks : List TextureKey}
    {outs : List (String × TextureKey)} {inv : List (TextureKey × String)}
    {r : List (String × TextureKey) × List (TextureKey × String)}
    (h : buildNamesGo default ks outs inv = Except.ok r) {k : TextureKey}
    {n : String} (hl : alookup inv k = some n) : alookup r.2 k = some n := by
  induction ks generalizing outs inv with
  | nil =>
      have : (outs, inv) = r := by
        simpa [buildNamesGo, pure, Except.pure] using h
      rw [← this]
      exact hl
  | cons k0 ks ih =>
      obtain ⟨n0, _, _, _, hrest⟩ := buildNamesGo_step h
      exact ih hrest (by rw [alookup_append, hl])

theorem buildNamesGo_inverse {default : String} {ks : List TextureKey}
    {outs : List (String × TextureKey)} {inv : List (TextureKey × String)}
    {r : List (String × TextureKey) × List (TextureKey × String)}
    (h : buildNamesGo default ks outs inv = Except.ok r)
    (hP : ∀ n k, alookup outs n = some k ↔ alookup inv k = some n) :
    ∀ n k, alookup r.1 n = some k ↔ alookup r.2 k = some n := by
  induction ks generalizing outs inv with
  | nil =>
      have : (outs, inv) = r := by
        simpa [buildNamesGo, pure, Except.pure] using h
      rw [← this]
      exact hP
  | cons k0 ks ih =>
      obtain ⟨n0, _, hofresh, hifresh, hrest⟩ := buildNamesGo_step h
      refine ih hrest ?_
      intro n k
      rw [alookup_append, alookup_append]
      constructor
      · intro hx
        rcases ho : alookup outs n with _ | k1
        · rw [ho] at hx
          simp only [alookup] at hx
          split at hx
          · rename_i hn
            cases hx
            subst hn
            rw [hifresh]
            simp [alookup]
          · exact Option.noConfusion hx
        · rw [ho] at hx
          cases hx
          have := (hP n k).mp ho
          rw [this]
      · intro hx
        rcases hi : alookup inv k with _ | n1
        · rw [hi] at hx
          simp only [alookup] at hx
          split at hx
          · rename_i hkk
            cases hx
            subst hkk
            rw [hofresh]
            simp [alookup]
          · exact Option.noConfusion hx
        · rw [hi] at hx
          cases hx
          have := (hP n k).mpr hi
          rw [this]

theorem buildNamesGo_inv_fresh {default : String} {ks : List TextureKey}
    {outs : List (String × TextureKey)} {inv : List (TextureKey × String)}
    {r : List (String × TextureKey) × List (TextureKey × String)}
    (h : buildNamesGo default ks outs inv = Except.ok r) :
    ∀ k ∈ ks, alookup inv k = Option.none := by
  induction ks generalizing outs inv with
  | nil => simp
  | cons k0 ks ih =>
      obtain ⟨n0, _, _, hifresh, hrest⟩ := buildNamesGo_step h
      intro k hk
      rcases List.mem_cons.mp hk with hk | hk
      · subst hk
        exact hifresh
      · have := ih hrest k hk
        rw [alookup_append] at this
        rcases hi : alookup inv k with _ | n1
        · rfl
        · rw [hi] at this
          exact Option.noConfusion this

theorem buildNamesGo_nodup {default : String} {ks : List TextureKey}
    {outs : List (String × TextureKey)} {inv : List (TextureKey × String)}
    {r : List (String × TextureKey) × List (TextureKey × String)}
    (h : buildNamesGo default ks outs inv = Except.ok r) : ks.Nodup := by
  induction ks generalizing outs inv with
  | nil => exact List.nodup_nil
  | cons k0 ks ih =>
      obtain ⟨n0, _, _, _, hrest⟩ := buildNamesGo_step h
      refine List.nodup_cons.mpr ⟨?_, ih hrest⟩
      intro hmem
      have := buildNamesGo_inv_fresh hrest k0 hmem
      rw [alookup_append] at this
      rcases hi : alookup inv k0 with _ | n1
      · rw [hi] at this
        simp [alookup] at this
      · rw [hi] at this
        exact Option.noConfusion this

theorem buildNamesGo_registered {default : String} {ks : List TextureKey}
    {outs : List (String × TextureKey)} {inv : List (TextureKey × String)}
    {r : List (String × TextureKey) × List (TextureKey × String)}
    (h : buildNamesGo default ks outs inv = Except.ok r) :
    ∀ k ∈ ks, ∃ n, name_fold k default = Except.ok n ∧ alookup r.1 n = some k := by
  induction ks generalizing outs inv with
  | nil => simp
  | cons k0 ks ih =>
      obtain ⟨n0, hfold, hofresh, _, hrest⟩ := buildNamesGo_step h
      intro k hk
      rcases List.mem_cons.mp hk with hk | hk
      · subst hk
        refine ⟨n0, hfold, buildNamesGo_stab_outs hrest ?_⟩
        rw [alookup_append, hofresh]
        simp [alookup]
      · exact ih hrest k hk

theorem buildNames_name_clash {default : String} {ks : List TextureKey}
    {k1 k2 : TextureKey} {n : String} (h1 : k1 ∈ ks) (h2 : k2 ∈ ks)
    (hne : k1 ≠ k2) (hf1 : name_fold k1 default = Except.ok n)
    (hf2 : name_fold k2 default = Except.ok n) :
    ∃ e, buildNames ks default = Except.error e := by
  rcases hr : buildNames ks default with e | r
  · exact ⟨e, rfl⟩
  · exfalso
    obtain ⟨m1, hm1, hl1⟩ := buildNamesGo_registered hr k1 h1
    obtain ⟨m2, hm2, hl2⟩ := buildNamesGo_registered hr k2 h2
    rw [hf1] at hm1
    rw [hf2] at hm2
    cases hm1
    cases hm2
    rw [hl1] at hl2
    cases hl2
    exact hne rfl

/-- C7: a successful output-name folding pass yields mutually inverse
(and hence injective) name→key and key→name maps; registering the same
key twice, or two structurally different keys that fold to the same
output name, is a hard error (so no entry is ever overwritten). -/
theorem name_maps_bijective (ks : List TextureKey) (default : String) :
    (∀ outs inv, buildNames ks default = Except.ok (outs, inv) →
      (∀ n k, alookup outs n = some k ↔ alookup inv k = some n) ∧
      (∀ n1 n2 k, alookup outs n1 = some k → alookup outs n2 = some k → n1 = n2) ∧
      (∀ n k1 k2, alookup inv k1 = some n → alookup inv k2 = some n → k1 = k2) ∧
      ks.Nodup) ∧
    (¬ ks.Nodup → ∃ e, buildNames ks default = Except.error e) ∧
    (∀ k1 k2 n, k1 ∈ ks → k2 ∈ ks → k1 ≠ k2 →
      name_fold k1 default = Except.ok n → name_fold k2 default = Except.ok n →
      ∃ e, buildNames ks default = Except.error e) := by
  refine ⟨?_, ?_, ?_⟩
  · intro outs inv h
    have hinv : ∀ n k, alookup outs n = some k ↔ alookup inv k = some n := by
      have hgo : buildNamesGo default ks [] [] = Except.ok (outs, inv) := h
      have := buildNamesGo_inverse hgo (by intro n k; simp [alookup])
      simpa using this
    refine ⟨hinv, ?_, ?_, ?_⟩
    · intro n1 n2 k hl1 hl2
      have e1 := (hinv n1 k).mp hl1
      have e2 := (hinv n2 k).mp hl2
      rw [e1] at e2
      cases e2
      rfl
    · intro n k1 k2 hl1 hl2
      have e1 := (hinv n k1).mpr hl1
      have e2 := (hinv n k2).mpr hl2
      rw [e1] at e2
      cases e2
      rfl
    · simpa using buildNamesGo_nodup h
  · intro hnd
    rcases hr : buildNames ks default with e | r
    · exact ⟨e, rfl⟩
    · exact absurd (buildNamesGo_nodup hr) hnd
  · intro k1 k2 n h1 h2 hne hf1 hf2
    exact buildNames_name_clash h1 h2 hne hf1 hf2

/-- A texture key referencing `tex.png`. -/
def keyTex : TextureKey :=
  ⟨[(PyVal.str "srcdir/tex.png", "rgb1")], "BC1_UNORM_SRGB",
    [PyVal.num (-1), PyVal.num (-1)]⟩

/-- The same channel source at an overridden resolution. -/
def keyTex256 : TextureKey :=
  ⟨[(PyVal.str "srcdir/tex.png", "rgb1")], "BC1_UNORM_SRGB",
    [PyVal.num 256, PyVal.num 256]⟩

/-- A sourceless (all-constant) texture key. -/
def keyDefault : TextureKey :=
  ⟨[(PyVal.none, "1111")], "BC1_UNORM_SRGB", [PyVal.num (-1), PyVal.num (-1)]⟩

/-- C7 witness: the bijection properties at a concrete two-key run. -/
theorem name_maps_bijective_witness :
    (alookup [("tex.dds", keyTex), ("$DEFAULT_DIFFUSE", keyDefault)] "tex.dds" =
        some keyTex ↔
      alookup [(keyTex, "tex.dds"), (keyDefault, "$DEFAULT_DIFFUSE")] keyTex =
        some "tex.dds") ∧
    ∃ e, buildNames [keyTex, keyTex256] "$DEFAULT_DIFFUSE" = Except.error e := by
  constructor
  · exact ((name_maps_bijective [keyTex, keyDefault] "$DEFAULT_DIFFUSE").1
      [("tex.dds", keyTex), ("$DEFAULT_DIFFUSE", keyDefault)]
      [(keyTex, "tex.dds"), (keyDefault, "$DEFAULT_DIFFUSE")] (by rfl)).1
      "tex.dds" keyTex
  · exact (name_maps_bijective [keyTex, keyTex256] "$DEFAULT_DIFFUSE").2.2
      keyTex keyTex256 "tex.dds" (by decide) (by decide) (by decide) (by rfl)
      (by rfl)

/-! ## C1 — end-to-end diffuse deduplication -/

theorem alookup_of_mem_nodup {α β : Type} [DecidableEq α] {l : List (α × β)}
    {k : α} {v : β} (hm : (k, v) ∈ l) (hnd : (akeys l).Nodup) :
    alookup l k = some v := by
  induction l with
  | nil => simp at hm
  | cons x rest ih =>
      obtain ⟨k0, v0⟩ := x
      obtain ⟨hk0, hndr⟩ := List.nodup_cons.mp hnd
      rcases List.mem_cons.mp hm with hm1 | hm1
      · cases hm1
        simp [alookup]
      · have hkne : k ≠ k0 := by
          intro he
          apply hk0
          rw [← he]
          exact List.mem_map.mpr ⟨(k, v), hm1, rfl⟩
        simp [alookup, hkne, ih hm1 hndr]

theorem str2keySlot_cons (k : TextureKey) (vs : List String)
    (rest : List (TextureKey × List String)) :
    str2keySlot ((k, vs) :: rest) =
      vs.map (fun v => (v, k)) ++ str2keySlot rest := rfl

theorem str2key_addKeyName (acc : List (TextureKey × List String))
    (k : TextureKey) (n : String) :
    (str2keySlot (addKeyName acc k n)).Perm (str2keySlot acc ++ [(n, k)]) := by
  induction acc with
  | nil => simp [str2keySlot, addKeyName]
  | cons x rest ih =>
      obtain ⟨k0, vs⟩ := x
      by_cases h : k = k0
      · subst h
        rw [show addKeyName ((k, vs) :: rest) k n = (k, vs ++ [n]) :: rest from
          by simp [addKeyName]]
        rw [str2keySlot_cons, str2keySlot_cons, List.map_append,
          List.append_assoc, List.append_assoc]
        exact List.Perm.append_left _ List.perm_append_comm
      · rw [show addKeyName ((k0, vs) :: rest) k n =
            (k0, vs) :: addKeyName rest k n from by simp [addKeyName, h]]
        rw [str2keySlot_cons, str2keySlot_cons, List.append_assoc]
        exact List.Perm.append_left _ ih

theorem str2key_key2list_foldl (getKey : DXSpec_Material → TextureKey)
    (db : List (String × DXSpec_Material))
    (acc : List (TextureKey × List String)) :
    (str2keySlot (db.foldl (fun a x => addKeyName a (getKey x.2) x.1) acc)).Perm
      (str2keySlot acc ++ db.map (fun x => (x.1, getKey x.2))) := by
  induction db generalizing acc with
  | nil => simp
  | cons x rest ih =>
      obtain ⟨n0, m0⟩ := x
      simp only [List.foldl_cons, List.map_cons]
      refine List.Perm.trans (ih (addKeyName acc (getKey m0) n0)) ?_
      refine List.Perm.trans
        (List.Perm.append_right _ (str2key_addKeyName acc (getKey m0) n0)) ?_
      simp [List.append_assoc]

theorem str2key_key2list_perm (getKey : DXSpec_Material → TextureKey)
    (db : List (String × DXSpec_Material)) :
    (str2keySlot (key2listSlot getKey db)).Perm
      (db.map (fun x => (x.1, getKey x.2))) := by
  have h := str2key_key2list_foldl getKey db []
  simpa [key2listSlot, str2keySlot] using h

theorem mem_akeys_of_mem_str2key {l : List (TextureKey × List String)}
    {v : String} {k : TextureKey} (h : (v, k) ∈ str2keySlot l) : k ∈ akeys l := by
  simp only [str2keySlot, List.mem_flatMap] at h
  obtain ⟨kvs, hkvs, hm⟩ := h
  simp only [List.mem_map] at hm
  obtain ⟨v0, _, he⟩ := hm
  cases he
  exact List.mem_map_of_mem Prod.fst hkvs

/-- The material→key map of a slot, as the source computes it. -/
theorem str2key_lookup (getKey : DXSpec_Material → TextureKey)
    {db : List (String × DXSpec_Material)} {n : String} {m : DXSpec_Material}
    (hnd : (akeys db).Nodup) (hm : (n, m) ∈ db) :
    alookup (str2keySlot (key2listSlot getKey db)) n = some (getKey m) := by
  have hperm := str2key_key2list_perm getKey db
  have hmem : (n, getKey m) ∈ str2keySlot (key2listSlot getKey db) :=
    hperm.mem_iff.mpr (List.mem_map_of_mem _ hm)
  have hnd2 : (akeys (str2keySlot (key2listSlot getKey db))).Nodup := by
    have := hperm.map Prod.fst
    refine this.nodup_iff.mpr ?_
    simpa [akeys, List.map_map, Function.comp] using hnd
  exact alookup_of_mem_nodup hmem hnd2

theorem mat2tex_lookup {s2k : List (String × TextureKey)}
    {k2s : List (TextureKey × String)} {tbl : List (String × String)}
    (h : mat2texSlot s2k k2s = Except.ok tbl) (nm : String) :
    alookup tbl nm = (alookup s2k nm).bind (fun k => alookup k2s k) := by
  induction s2k generalizing tbl with
  | nil =>
      have : ([] : List (String × String)) = tbl := by
        simpa [mat2texSlot] using h
      rw [← this]
      simp [alookup]
  | cons x rest ih =>
      obtain ⟨n0, k0⟩ := x
      unfold mat2texSlot at h
      rcases hks : alookup k2s k0 with _ | s0 <;> rw [hks] at h
      · exact Except.noConfusion h
      · obtain ⟨tl, htl, hp⟩ := exceptBind_ok h
        have : (n0, s0) :: tl = tbl := by
          simpa [pure, Except.pure] using hp
        rw [← this]
        by_cases hnm : nm = n0
        · subst hnm
          simp [alookup, hks]
        · simp [alookup, hnm, ih htl]

theorem buildNamesGo_registered_inv {default : String} {ks : List TextureKey}
    {outs : List (String × TextureKey)} {inv : List (TextureKey × String)}
    {r : List (String × TextureKey) × List (TextureKey × String)}
    (h : buildNamesGo default ks outs inv = Except.ok r) :
    ∀ k ∈ ks, ∃ n, alookup r.2 k = some n := by
  induction ks generalizing outs inv with
  | nil => simp
  | cons k0 ks ih =>
      obtain ⟨n0, _, _, hifresh, hrest⟩ := buildNamesGo_step h
      intro k hk
      rcases List.mem_cons.mp hk with hk | hk
      · subst hk
        refine ⟨n0, buildNamesGo_stab_inv hrest ?_⟩
        rw [alookup_append, hifresh]
        simp [alookup]
      · exact ih hrest k hk

/-- The fold name of a diffuse key with a real source path. -/
theorem name_fold_diffuse_uri {m : DXSpec_Material} {p : String}
    (hu : m.diffuse.uri = PyVal.str p) (default : String) :
    name_fold m.get_diffuse_texture_key default =
      Except.ok (replaceBackslash (pathStem p ++ ".dds")) := by
  simp [name_fold, DXSpec_Material.get_diffuse_texture_key,
    DXSpec_DiffuseTexture.get_texture_key, hu]

/-- C1 (amended): in one conversion run over a material database with
unique names, two materials whose diffuse slots derive the same
TextureKey resolve to the same diffuse output filename in the
material→texture table; but two materials whose diffuse slots share the
same source path while their TextureKeys differ (e.g. only the target
resolution was changed by an override) make the run fail with a hard
error instead of assigning two distinct filenames, because both keys
fold to the same output name. -/
theorem diffuse_dedup_run (db : List (String × DXSpec_Material)) (n1 n2 : String)
    (m1 m2 : DXSpec_Material) (tc : Mat2TextureContainer)
    (hnd : (akeys db).Nodup) (h1 : (n1, m1) ∈ db) (h2 : (n2, m2) ∈ db) :
    (m1.get_diffuse_texture_key = m2.get_diffuse_texture_key →
      runContainers db = Except.ok tc →
      alookup tc.diffuse n1 = alookup tc.diffuse n2 ∧
      (alookup tc.diffuse n1).isSome = true) ∧
    (∀ p, m1.diffuse.uri = PyVal.str p → m2.diffuse.uri = PyVal.str p →
      m1.get_diffuse_texture_key ≠ m2.get_diffuse_texture_key →
      ∃ e, runContainers db = Except.error e) := by
  constructor
  · intro hkey hrun
    unfold runContainers at hrun
    obtain ⟨kc, hkc, hrun⟩ := exceptBind_ok hrun
    obtain ⟨sc, hsc, hrun⟩ := exceptBind_ok hrun
    unfold buildKeysContainer at hkc
    obtain ⟨em, _, hkcp⟩ := exceptBind_ok hkc
    have hkcd : kc.diffuse = key2listSlot DXSpec_Material.get_diffuse_texture_key db := by
      have : (⟨key2listSlot DXSpec_Material.get_diffuse_texture_key db,
          key2listSlot DXSpec_Material.get_normal_texture_key db,
          key2listSlot DXSpec_Material.get_orm_texture_key db, em⟩ :
          TextureKeysContainer) = kc := by
        simpa [pure, Except.pure] using hkcp
      rw [← this]
    unfold buildSpecContainer at hsc
    obtain ⟨dp, hdp, hsc⟩ := exceptBind_ok hsc
    obtain ⟨np, hnp, hsc⟩ := exceptBind_ok hsc
    obtain ⟨op, hop, hsc⟩ := exceptBind_ok hsc
    obtain ⟨ep, hep, hscp⟩ := exceptBind_ok hsc
    have hscd : sc.diffuse_key2str = dp.2 := by
      have : (⟨dp.1, dp.2, np.1, np.2, op.1, op.2, ep.1, ep.2⟩ :
          TextureSpecContainer) = sc := by
        simpa [pure, Except.pure] using hscp
      rw [← this]
    unfold buildMat2Texture at hrun
    obtain ⟨dtbl, hdtbl, hrun⟩ := exceptBind_ok hrun
    obtain ⟨ntbl, _, hrun⟩ := exceptBind_ok hrun
    obtain ⟨otbl, _, hrun⟩ := exceptBind_ok hrun
    obtain ⟨etbl, _, hruntc⟩ := exceptBind_ok hrun
    have htcd : tc.diffuse = dtbl := by
      have : (⟨dtbl, ntbl, otbl, etbl⟩ : Mat2TextureContainer) = tc := by
        simpa [pure, Except.pure] using hruntc
      rw [← this]
    have hl1 : alookup (str2keySlot kc.diffuse) n1 =
        some m1.get_diffuse_texture_key := by
      rw [hkcd]
      exact str2key_lookup _ hnd h1
    have hl2 : alookup (str2keySlot kc.diffuse) n2 =
        some m2.get_diffuse_texture_key := by
      rw [hkcd]
      exact str2key_lookup _ hnd h2
    have ht1 := mat2tex_lookup hdtbl n1
    have ht2 := mat2tex_lookup hdtbl n2
    rw [hl1] at ht1
    rw [hl2] at ht2
    have hgo : buildNamesGo "$DEFAULT_DIFFUSE" (akeys kc.diffuse) [] [] =
        Except.ok dp := hdp
    have hmemkey : m1.get_diffuse_texture_key ∈ akeys kc.diffuse := by
      rw [hkcd]
      exact mem_akeys_of_mem_str2key
        ((str2key_key2list_perm _ db).mem_iff.mpr (List.mem_map_of_mem _ h1))
    obtain ⟨nn, hnn⟩ := buildNamesGo_registered_inv hgo _ hmemkey
    rw [htcd]
    constructor
    · rw [ht1, ht2, hkey]
    · rw [ht1, hscd]
      simp [hnn]
  · intro p hu1 hu2 hkne
    rcases hr : runContainers db with e | tc0
    · exact ⟨e, rfl⟩
    · exfalso
      unfold runContainers at hr
      obtain ⟨kc, hkc, hr⟩ := exceptBind_ok hr
      obtain ⟨sc, hsc, hr⟩ := exceptBind_ok hr
      unfold buildKeysContainer at hkc
      obtain ⟨em, _, hkcp⟩ := exceptBind_ok hkc
      have hkcd : kc.diffuse =
          key2listSlot DXSpec_Material.get_diffuse_texture_key db := by
        have : (⟨key2listSlot DXSpec_Material.get_diffuse_texture_key db,
            key2listSlot DXSpec_Material.get_normal_texture_key db,
            key2listSlot DXSpec_Material.get_orm_texture_key db, em⟩ :
            TextureKeysContainer) = kc := by
          simpa [pure, Except.pure] using hkcp
        rw [← this]
      unfold buildSpecContainer at hsc
      obtain ⟨dp, hdp, hsc⟩ := exceptBind_ok hsc
      have hmem1 : m1.get_diffuse_texture_key ∈ akeys kc.diffuse := by
        rw [hkcd]
        exact mem_akeys_of_mem_str2key
          ((str2key_key2list_perm _ db).mem_iff.mpr (List.mem_map_of_mem _ h1))
      have hmem2 : m2.get_diffuse_texture_key ∈ akeys kc.diffuse := by
        rw [hkcd]
        exact mem_akeys_of_mem_str2key
          ((str2key_key2list_perm _ db).mem_iff.mpr (List.mem_map_of_mem _ h2))
      obtain ⟨e, he⟩ := buildNames_name_clash hmem1 hmem2 hkne
        (name_fold_diffuse_uri hu1 "$DEFAULT_DIFFUSE")
        (name_fold_diffuse_uri hu2 "$DEFAULT_DIFFUSE")
      rw [he] at hdp
      exact Except.noConfusion hdp

/-- The material assembled from `gmA` with no override. -/
def mA : DXSpec_Material :=
  ⟨"A", "model",
    ⟨PyVal.str "srcdir/tex.png", "rgb1",
      PyVal.tuple [PyVal.num 1, PyVal.num 1, PyVal.num 1, PyVal.num 1]⟩,
    ⟨PyVal.none, "hh", PyVal.num 1⟩,
    ⟨⟨PyVal.none, "1", PyVal.num 1⟩, ⟨PyVal.none, "1", PyVal.num 1⟩,
      ⟨PyVal.none, "1", PyVal.num 0⟩⟩,
    Option.none, "OPAQUE", PyVal.none, false,
    [PyVal.num (-1), PyVal.num (-1)]⟩

/-- The material assembled from `gmB` with no override. -/
def mB : DXSpec_Material := { mA with name := "B" }

/-- The material assembled from `gmB` with a resolution override. -/
def mB256 : DXSpec_Material := { mB with resolution := [PyVal.num 256, PyVal.num 256] }

/-- The material→texture table of the run over `mA`/`mB`. -/
def tcEx : Mat2TextureContainer :=
  ⟨[("A", "tex.dds"), ("B", "tex.dds")],
   [("A", "$DEFAULT_NORMAL"), ("B", "$DEFAULT_NORMAL")],
   [("A", "$DEFAULT_ORM"), ("B", "$DEFAULT_ORM")], []⟩

/-- C1 counterexample: materials "A" and "B" share one diffuse source →
one shared output filename `tex.dds`; overriding B's target resolution
produces two distinct diffuse TextureKeys, but the run then *fails*
with the name-collision error instead of assigning two distinct output
filenames (both keys fold to `tex.dds`), so the second half of the
claim is false on the code. -/
theorem diffuse_dedup_cex :
    DXSpec_Material.init gmA src1 Option.none = Except.ok mA ∧
    DXSpec_Material.init gmB src1 Option.none = Except.ok mB ∧
    DXSpec_Material.init gmB src1
      (some [("resolution", PyVal.list [PyVal.num 256, PyVal.num 256])]) =
      Except.ok mB256 ∧
    runContainers [("A", mA), ("B", mB)] = Except.ok tcEx ∧
    alookup tcEx.diffuse "A" = some "tex.dds" ∧
    alookup tcEx.diffuse "B" = some "tex.dds" ∧
    mA.get_diffuse_texture_key ≠ mB256.get_diffuse_texture_key ∧
    runContainers [("A", mA), ("B", mB256)] =
      Except.error (PyError.valueError "Outname already exists!!") :=
  ⟨rfl, rfl, rfl, rfl, rfl, rfl, by decide, rfl⟩

/-- C1 witness: the amended statement at the concrete two-material runs. -/
theorem diffuse_dedup_run_witness :
    (alookup tcEx.diffuse "A" = alookup tcEx.diffuse "B" ∧
      (alookup tcEx.diffuse "A").isSome = true) ∧
    (∃ e, runContainers [("A", mA), ("B", mB256)] = Except.error e) :=
  ⟨(diffuse_dedup_run [("A", mA), ("B", mB)] "A" "B" mA mB tcEx (by decide)
      (by decide) (by decide)).1 (by decide) (by rfl),
   (diffuse_dedup_run [("A", mA), ("B", mB256)] "A" "B" mA mB256 tcEx (by decide)
      (by decide) (by decide)).2 "srcdir/tex.png" (by rfl) (by rfl) (by decide)⟩

end GltfConv
